import Mathlib

namespace Server32

/-- Python-style JSON-ish value, as decoded from the broker's payloads. -/
inductive Val where
  | vnone : Val
  | vbool (b : Bool) : Val
  | vnum (q : ℚ) : Val
  | vstr (s : String) : Val
  | vlist (xs : List Val) : Val
  | vdict (xs : List (String × Val)) : Val
deriving Repr

mutual

/-- Structural equality test on values (Python `==` on decoded JSON). -/
def Val.beq : Val → Val → Bool
  | .vnone, .vnone => true
  | .vbool a, .vbool b => a = b
  | .vnum a, .vnum b => a = b
  | .vstr a, .vstr b => a = b
  | .vlist xs, .vlist ys => Val.beqList xs ys
  | .vdict xs, .vdict ys => Val.beqDict xs ys
  | _, _ => false

def Val.beqList : List Val → List Val → Bool
  | [], [] => true
  | x :: xs, y :: ys => Val.beq x y && Val.beqList xs ys
  | _, _ => false

def Val.beqDict : List (String × Val) → List (String × Val) → Bool
  | [], [] => true
  | (k, x) :: xs, (l, y) :: ys => k = l && Val.beq x y && Val.beqDict xs ys
  | _, _ => false

end

mutual

theorem Val.beq_refl : ∀ v : Val, Val.beq v v = true
  | .vnone => rfl
  | .vbool b => by simp [Val.beq]
  | .vnum q => by simp [Val.beq]
  | .vstr s => by simp [Val.beq]
  | .vlist xs => by simpa [Val.beq] using Val.beqList_refl xs
  | .vdict xs => by simpa [Val.beq] using Val.beqDict_refl xs

theorem Val.beqList_refl : ∀ xs : List Val, Val.beqList xs xs = true
  | [] => rfl
  | x :: xs => by simp [Val.beqList, Val.beq_refl x, Val.beqList_refl xs]

theorem Val.beqDict_refl : ∀ xs : List (String × Val), Val.beqDict xs xs = true
  | [] => rfl
  | (k, x) :: xs => by simp [Val.beqDict, Val.beq_refl x, Val.beqDict_refl xs]

end

example : Val.beq (Val.vnum 3) Val.vnone = false := by decide

/-! ## Python numeric coercion (candle_keys._abs_num, perf_real_main._to_num /
_abs_num, perf_real._to_num, perf_real_claude._to_num / _abs_num).
Machine floats are modelled as exact rationals; `float(str)` is modelled by
`pyFloat` covering the decimal forms `[sign] digits [. digits]` that the
broker's numeric strings take (other forms fail, i.e. coerce to 0.0). -/

/-- Python `str.strip()`: drop whitespace from both ends. -/
def pyStrip (cs : List Char) : List Char :=
  ((cs.dropWhile Char.isWhitespace).reverse.dropWhile Char.isWhitespace).reverse

/-- Value of a decimal digit string (used only on all-digit lists). -/
def digitsToNat (cs : List Char) : ℕ :=
  cs.foldl (fun a c => a * 10 + (c.toNat - 48)) 0

/-- Decoded decimal literal: sign, integer part, fractional digits value,
number of fractional digits. Kept in ℕ/Bool form so that concrete runs of the
parsers are decidable; `FRep.toQ` gives its exact rational value. -/
structure FRep where
  neg : Bool
  ip : ℕ
  fp : ℕ
  fdigits : ℕ
deriving DecidableEq, Repr

/-- Model of Python `float(s)` on the grammar `[+|-] digits [. digits]`
(at least one digit overall); anything else fails (raises, which the callers
below turn into 0.0). -/
def pyFloatRep (cs : List Char) : Option FRep :=
  let sgned : Bool × List Char :=
    match cs with
    | '-' :: t => (true, t)
    | '+' :: t => (false, t)
    | t => (false, t)
  match sgned.2.splitOn '.' with
  | [ip] =>
    if ip ≠ [] ∧ ip.all Char.isDigit then
      some ⟨sgned.1, digitsToNat ip, 0, 0⟩
    else none
  | [ip, fp] =>
    if (ip ≠ [] ∨ fp ≠ []) ∧ ip.all Char.isDigit ∧ fp.all Char.isDigit then
      some ⟨sgned.1, digitsToNat ip, digitsToNat fp, fp.length⟩
    else none
  | _ => none

/-- Exact rational value of a decoded decimal literal. -/
def FRep.toQ (r : FRep) : ℚ :=
  (if r.neg then -1 else 1) * ((r.ip : ℚ) + (r.fp : ℚ) / (10 : ℚ) ^ r.fdigits)

/-- Character pipeline of candle_keys._abs_num: strip, drop commas/spaces,
drop all sign characters (the parity flag `neg` computed by the source is dead
code since `abs` is applied to the result), lstrip zeros with "0" fallback,
then decode as a float. `none` covers both the empty string and a failed
float() call, which the source maps to 0.0. -/
def ckNumRep (s : String) : Option FRep :=
  let s0 := (pyStrip s.data).filter (fun c => c != ',' && c != ' ')
  if s0.isEmpty then none
  else
    let s1 := s0.filter (fun c => c != '-' && c != '+')
    let s2 := s1.dropWhile (· == '0')
    let s3 := if s2.isEmpty then ['0'] else s2
    pyFloatRep s3

/-- String branch of candle_keys._abs_num: abs(float(pipeline)), 0.0 on error. -/
def absNumStrCK (s : String) : ℚ :=
  match ckNumRep s with
  | some r => |r.toQ|
  | none => 0

/-- candle_keys._abs_num. Python bool is an int (abs(float(True)) = 1.0);
str() of a list/dict never parses as a float, hence 0.0. -/
def absNumCK : Val → ℚ
  | .vnone => 0
  | .vbool b => if b then 1 else 0
  | .vnum q => |q|
  | .vstr s => absNumStrCK s
  | .vlist _ => 0
  | .vdict _ => 0

/-- Character pipeline of perf_real_main._to_num: leading-minus parity gives
the sign, then all leading '+' and leading '0' are stripped. The returned Bool
is the outer sign flag (true = negative). -/
def mainNumRep (s : String) : Option (Bool × FRep) :=
  let s0 := (pyStrip s.data).filter (fun c => c != ',' && c != ' ')
  if s0.isEmpty then none
  else
    let neg := (s0.takeWhile (· == '-')).length % 2 == 1
    let s1 := (s0.dropWhile (· == '-')).dropWhile (· == '+')
    let s2 := s1.dropWhile (· == '0')
    let s3 := if s2.isEmpty then ['0'] else s2
    (pyFloatRep s3).map (fun r => (neg, r))

/-- String branch of perf_real_main._to_num: float(pipeline) * sign. -/
def toNumStrMain (s : String) : ℚ :=
  match mainNumRep s with
  | some (neg, r) => r.toQ * (if neg then -1 else 1)
  | none => 0

/-- perf_real_main._to_num. -/
def toNumMain : Val → ℚ
  | .vnone => 0
  | .vbool b => if b then 1 else 0
  | .vnum q => q
  | .vstr s => toNumStrMain s
  | .vlist _ => 0
  | .vdict _ => 0

/-- perf_real_main._abs_num = abs(_to_num(v)). -/
def absNumMain (v : Val) : ℚ := |toNumMain v|

/-- Character pipeline of perf_real._to_num: commas removed (but not inner
spaces), sign from a single leading '-', then every '+'/'-' removed before
float(); no zero-stripping in this variant. -/
def legacyNumRep (s : String) : Option (Bool × FRep) :=
  let s0 := (pyStrip s.data).filter (fun c => c != ',')
  if s0.isEmpty then none
  else
    let neg := s0.head? == some '-'
    let s1 := s0.filter (fun c => c != '+' && c != '-')
    (pyFloatRep s1).map (fun r => (neg, r))

/-- String branch of perf_real._to_num: float(pipeline) * sign. -/
def toNumStrLegacy (s : String) : ℚ :=
  match legacyNumRep s with
  | some (neg, r) => r.toQ * (if neg then -1 else 1)
  | none => 0

/-- perf_real._to_num. -/
def toNumLegacy : Val → ℚ
  | .vnone => 0
  | .vbool b => if b then 1 else 0
  | .vnum q => q
  | .vstr s => toNumStrLegacy s
  | .vlist _ => 0
  | .vdict _ => 0

/-- Character pipeline of perf_real_claude._to_num: a doubled leading minus is
dropped with positive sign, a single one negates, a leading '+' is dropped;
then leading zeros are stripped with "0" fallback. -/
def claudeNumRep (s : String) : Option (Bool × FRep) :=
  let s0 := (pyStrip s.data).filter (fun c => c != ',' && c != ' ')
  if s0.isEmpty then none
  else
    let sgned : Bool × List Char :=
      match s0 with
      | '-' :: '-' :: t => (false, t)
      | '-' :: t => (true, t)
      | '+' :: t => (false, t)
      | t => (false, t)
    let s2 := sgned.2.dropWhile (· == '0')
    let s3 := if s2.isEmpty then ['0'] else s2
    (pyFloatRep s3).map (fun r => (sgned.1, r))

/-- String branch of perf_real_claude._to_num: float(pipeline) * sign. -/
def toNumStrClaude (s : String) : ℚ :=
  match claudeNumRep s with
  | some (neg, r) => r.toQ * (if neg then -1 else 1)
  | none => 0

/-- perf_real_claude._to_num. -/
def toNumClaude : Val → ℚ
  | .vnone => 0
  | .vbool b => if b then 1 else 0
  | .vnum q => q
  | .vstr s => toNumStrClaude s
  | .vlist _ => 0
  | .vdict _ => 0

/-- perf_real_claude._abs_num = abs(_to_num(v)). -/
def absNumClaude (v : Val) : ℚ := |toNumClaude v|

example : absNumCK (.vstr "-1,234") = 1234 := by
  have h : ckNumRep "-1,234" = some ⟨false, 1234, 0, 0⟩ := by decide
  norm_num [absNumCK, absNumStrCK, h, FRep.toQ]

example : absNumCK (.vstr "12.5") = 25 / 2 := by
  have h : ckNumRep "12.5" = some ⟨false, 12, 5, 1⟩ := by decide
  norm_num [absNumCK, absNumStrCK, h, FRep.toQ]

example : absNumCK (.vstr "abc") = 0 := by
  have h : ckNumRep "abc" = Option.none := by decide
  norm_num [absNumCK, absNumStrCK, h]

example : absNumMain (.vstr "-11,000") = 11000 := by
  have h : mainNumRep "-11,000" = some (true, ⟨false, 11000, 0, 0⟩) := by decide
  norm_num [absNumMain, toNumMain, toNumStrMain, h, FRep.toQ]

example : toNumLegacy (.vstr "-11,000") = -11000 := by
  have h : legacyNumRep "-11,000" = some (true, ⟨false, 11000, 0, 0⟩) := by decide
  norm_num [toNumLegacy, toNumStrLegacy, h, FRep.toQ]

example : toNumClaude (.vstr "--1,234") = 1234 := by
  have h : claudeNumRep "--1,234" = some (false, ⟨false, 1234, 0, 0⟩) := by decide
  norm_num [toNumClaude, toNumStrClaude, h, FRep.toQ]

/-! ## Row / dict access helpers -/

/-- A decoded JSON record (Python dict of string keys). -/
abbrev Sample := List (String × Val)

/-- Python `row.get(k, dflt)`. -/
def rowGet (row : Sample) (k : String) (dflt : Val) : Val :=
  (row.lookup k).getD dflt

/-- `v not in (None, "", " ")` — the validity filter used by
candle_keys.CandleKeyMap.detect and perf_real_main._first_valid. -/
def notNoneBlank : Val → Bool
  | .vnone => false
  | .vstr s => !(s == "" || s == " ")
  | _ => true

/-- `v not in (None, "")` — the validity filter used by
perf_real_claude._coalesce and perf_real._coalesce. -/
def notNoneEmpty : Val → Bool
  | .vnone => false
  | .vstr s => !(s == "")
  | _ => true

/-- perf_real_main._first_valid: first key present with a non-null,
non-blank value, else the default. -/
def firstValid : List String → Sample → Val → Val
  | [], _, dflt => dflt
  | k :: ks, d, dflt =>
    match d.lookup k with
    | some v => if notNoneBlank v then v else firstValid ks d dflt
    | Option.none => firstValid ks d dflt

/-- perf_real_claude._coalesce (also perf_real._coalesce): first key present
with a non-null, non-empty value, else the default. -/
def coalesceC : List String → Sample → Val → Val
  | [], _, dflt => dflt
  | k :: ks, d, dflt =>
    match d.lookup k with
    | some v => if notNoneEmpty v then v else coalesceC ks d dflt
    | Option.none => coalesceC ks d dflt

/-- Model of Python `str(v)` (exact text of non-string values is immaterial
to every property proved here: such strings are only compared to "" or kept
as opaque identifiers/timestamps, never parsed back into numbers). -/
def pyStrVal : Val → String
  | .vnone => "None"
  | .vbool b => if b then "True" else "False"
  | .vnum q => if q.den = 1 then toString q.num else toString q
  | .vstr s => s
  | .vlist _ => "[list]"
  | .vdict _ => "[dict]"

/-- Python `str.strip()` packaged on `String`. -/
def pyStripStr (s : String) : String := String.mk (pyStrip s.data)

/-! ## candle_keys.py — CandleKeyMap (schema detection and candle parsing) -/

/-- One parsed candle bar (dict with keys t/o/h/l/c/v in the source). -/
structure Bar where
  t : String
  o : ℚ
  h : ℚ
  l : ℚ
  c : ℚ
  v : ℚ
deriving DecidableEq, Repr

/-- candle_keys.CandleKeyMap.CANDIDATES, in dict iteration order. -/
def CANDIDATES : List (String × List String) :=
  [("time", ["time", "date", "t", "timestamp",
             "체결시간", "일자", "Date", "Time"]),
   ("open", ["open", "o", "Open", "시가", "start_price", "OPEN"]),
   ("high", ["high", "h", "High", "고가", "max_price", "HIGH"]),
   ("low", ["low", "l", "Low", "저가", "min_price", "LOW"]),
   ("close", ["close", "c", "Close", "현재가", "종가",
              "last_price", "CLOSE"]),
   ("volume", ["volume", "v", "Volume", "vol", "거래량",
               "cumVolume", "VOL", "VOLUME"])]

/-- The `found` dict built by CandleKeyMap.detect: for each role, the first
candidate key present in the sample with a non-null, non-blank value. -/
def buildFound (sample : Sample) : List (String × String) :=
  CANDIDATES.foldl
    (fun acc rc =>
      match rc.2.find? (fun c =>
          match sample.lookup c with
          | some v => notNoneBlank v
          | Option.none => false) with
      | some c => acc ++ [(rc.1, c)]
      | Option.none => acc)
    []

/-- candle_keys.CandleKeyMap state: resolved role→field map plus lock flag. -/
structure CandleKeyMap where
  resolved : List (String × String)
  locked : Bool
deriving DecidableEq, Repr

/-- Fresh CandleKeyMap (as built by `__init__`). -/
def CandleKeyMap.init : CandleKeyMap := ⟨[], false⟩

/-- candle_keys.CandleKeyMap.detect: no-op once locked; otherwise rebuild
`found` and lock only if a "close" mapping was found. -/
def CandleKeyMap.detect (m : CandleKeyMap) (sample : Sample) :
    Bool × CandleKeyMap :=
  if m.locked then (true, m)
  else
    let found := buildFound sample
    match found.lookup "close" with
    | Option.none => (false, m)
    | some _ => (true, ⟨found, true⟩)

/-- Body of candle_keys.CandleKeyMap.parse once a mapping is available:
drop rows with non-positive close, default missing open/high/low, then
force high ≥ max(open, close) and low ≤ min(open, close). -/
def CandleKeyMap.parseLocked (m : CandleKeyMap) (row : Sample) : Option Bar :=
  let c := absNumCK (rowGet row ((m.resolved.lookup "close").getD "") (.vnum 0))
  if c ≤ 0 then Option.none
  else
    let t := pyStripStr (pyStrVal
      (rowGet row ((m.resolved.lookup "time").getD "") (.vstr "")))
    let o0 := absNumCK (rowGet row ((m.resolved.lookup "open").getD "") (.vnum 0))
    let h0 := absNumCK (rowGet row ((m.resolved.lookup "high").getD "") (.vnum 0))
    let l0 := absNumCK (rowGet row ((m.resolved.lookup "low").getD "") (.vnum 0))
    let v := absNumCK (rowGet row ((m.resolved.lookup "volume").getD "") (.vnum 0))
    let o := if o0 ≤ 0 then c else o0
    let h1 := if h0 ≤ 0 then max o c else h0
    let l1 := if l0 ≤ 0 then (if 0 < min o c then min o c else c) else l0
    some ⟨t, o, max h1 (max o c), min l1 (min o c), c, v⟩

/-- candle_keys.CandleKeyMap.parse: if unlocked, first try to detect from the
row itself (returning None when detection fails), then parse. -/
def CandleKeyMap.parse (m : CandleKeyMap) (row : Sample) :
    Option Bar × CandleKeyMap :=
  if m.locked then (m.parseLocked row, m)
  else
    match m.detect row with
    | (false, m') => (Option.none, m')
    | (_, m') => (m'.parseLocked row, m')

/-! ## perf_real_claude.py — broker key constants and _parse_candle_rows -/

def K_TIME : String := "체결시간"
def K_DATE : String := "일자"
def K_OPEN : String := "시가"
def K_HIGH : String := "고가"
def K_LOW : String := "저가"
def K_CLOSE : String := "현재가"
def K_CLOSE_ALT : String := "종가"
def K_VOL : String := "거래량"
def K_NAME : String := "종목명"

/-- Per-row body of perf_real_claude._parse_candle_rows: non-dict rows are
skipped, all OHLCV go through absolute coercion, rows with close ≤ 0 are
dropped, missing fields are defaulted, and OHLC consistency is repaired
(with a final low > 0 re-repair). -/
def rowToBarClaude (row : Val) : Option Bar :=
  match row with
  | .vdict d =>
    let t := pyStripStr (pyStrVal
      (coalesceC [K_TIME, "time", K_DATE, "timestamp", "date"] d (.vstr "")))
    let o0 := absNumClaude (coalesceC [K_OPEN, "open"] d (.vnum 0))
    let h0 := absNumClaude (coalesceC [K_HIGH, "high"] d (.vnum 0))
    let l0 := absNumClaude (coalesceC [K_LOW, "low"] d (.vnum 0))
    let c := absNumClaude (coalesceC [K_CLOSE, K_CLOSE_ALT, "close"] d (.vnum 0))
    let v := absNumClaude (coalesceC [K_VOL, "volume"] d (.vnum 0))
    if c ≤ 0 then Option.none
    else
      let o := if o0 ≤ 0 then c else o0
      let h1 := if h0 ≤ 0 then max o c else h0
      let l1 := if l0 ≤ 0 then min o c else l0
      let h := max h1 (max o c)
      let l2 := min l1 (min o c)
      let l := if l2 ≤ 0 then min o c else l2
      some ⟨t, o, h, l, c, v⟩
  | _ => Option.none

/-- perf_real_claude._parse_candle_rows: parse every dict row, then sort the
result by timestamp (Python's stable sort on the "t" key). -/
def parseCandleRows (rows : Val) : List Bar :=
  match rows with
  | .vlist xs => (xs.filterMap rowToBarClaude).mergeSort (fun a b => a.t ≤ b.t)
  | _ => []

/-! ## Symbol state and the ScoreEngine (strategy.recompute_scores and
perf_real_claude.RealDataSimulator._recompute_scores) -/

/-- One symbol's state dict, with the keys created by
RealDataSimulator._load_stocks_by_codes (plus the `_placeholder` marker). -/
structure Stock where
  code : String
  name : String
  sector : String
  base_price : ℚ
  open_price : ℚ
  price : ℚ
  prev_close : ℚ
  high : ℚ
  low : ℚ
  volume_acc : ℚ
  tick_count : ℚ
  avg5d : ℚ
  prev_d : ℚ
  tes : ℚ
  ucs : ℚ
  frs : ℚ
  hms : ℚ
  bms : ℚ
  sls : ℚ
  axes : ℕ
  candle_idx : ℤ
  placeholder : Bool
deriving DecidableEq, Repr

/-- strategy.recompute_scores: recompute TES/HMS/BMS/SLS/UCS/FRS and the axes
count from tick state, in place (modelled functionally). The `diff` argument
is accepted but unused by the source. -/
def recompute_scores (s : Stock) (rate diff intensity : ℚ) : Stock :=
  let p := |s.price|
  let op := |s.open_price|
  let rate1 := if rate = 0 ∧ 0 < op ∧ 0 < p then (p - op) / op * 100 else rate
  let abs_rate := |rate1|
  let vol := |s.volume_acc|
  let a5 := max 1 |s.avg5d|
  let pd := max 1 |s.prev_d|
  let tc := max 1 |s.tick_count|
  let vr := if 0 < a5 then vol / a5 else 0
  let tes := max 0 (min 3
    (abs_rate / 2.5 + intensity / 200 + min (tc / (a5 * 0.0385)) 1 * 0.5))
  let hms := max 0 (min 1 ((rate1 / 10 + 0.5) * 0.6 + min vr 1 * 0.4))
  let bms := max 0 (min 1 (abs_rate / 5 * 0.5 + min (intensity / 120) 1 * 0.5))
  let sls := max 0 (min 1 (min 1 (vol / 5000000) * 0.7 + min vr 1 * 0.3))
  let ucs := max 0 (min 1 (hms * 0.4 + bms * 0.35 + sls * 0.25))
  let frs := max 0 (min 2.5
    (tes * 0.5 + ucs * 1 + min (tc / (a5 * 0.0385)) 1.5 * 0.3))
  let axes := (if 0.4 ≤ hms then 1 else 0) + (if 0.4 ≤ bms then 1 else 0)
    + (if 0.4 ≤ sls then 1 else 0)
  let _ := (diff, pd)
  { s with tes := tes, hms := hms, bms := bms, sls := sls, ucs := ucs,
           frs := frs, axes := axes }

/-- perf_real_claude.RealDataSimulator._recompute_scores: same formulas, but
price/open are taken signed (no abs) and `diff` gets a default it never uses. -/
def claudeRecomputeScores (s : Stock) (rate diff intensity : ℚ) : Stock :=
  let price := s.price
  let open_p := s.open_price
  let rate1 :=
    if rate = 0 ∧ 0 < open_p ∧ 0 < price then (price - open_p) / open_p * 100
    else rate
  let diff1 :=
    if diff = 0 ∧ 0 < open_p ∧ 0 < price then price - open_p else diff
  let abs_rate := |rate1|
  let vol_acc := s.volume_acc
  let avg5d := max 1 s.avg5d
  let prev_d := max 1 s.prev_d
  let tc := max 1 s.tick_count
  let vol_ratio := if 0 < avg5d then vol_acc / avg5d else 0
  let tes := max 0 (min 3
    (abs_rate / 2.5 + intensity / 200 + min (tc / (avg5d * 0.0385)) 1 * 0.5))
  let hms := max 0 (min 1 ((rate1 / 10 + 0.5) * 0.6 + min vol_ratio 1 * 0.4))
  let bms := max 0 (min 1
    (abs_rate / 5 * 0.5 + min (intensity / 120) 1 * 0.5))
  let sls := max 0 (min 1
    (min 1 (vol_acc / 5000000) * 0.7 + min vol_ratio 1 * 0.3))
  let ucs := max 0 (min 1 (hms * 0.4 + bms * 0.35 + sls * 0.25))
  let frs := max 0 (min 2.5
    (tes * 0.5 + ucs * 1 + min (tc / (avg5d * 0.0385)) 1.5 * 0.3))
  let axes := (if 0.4 ≤ hms then 1 else 0) + (if 0.4 ≤ bms then 1 else 0)
    + (if 0.4 ≤ sls then 1 else 0)
  let _ := (diff1, prev_d)
  { s with tes := tes, hms := hms, bms := bms, sls := sls, ucs := ucs,
           frs := frs, axes := axes }

/-! ## Realtime tick ingestion: perf_real_main._on_realtime and
perf_real._on_realtime (per-symbol bodies, for a symbol found in the table) -/

def RT_PRICE_KEYS : List String := ["current_price", "price", "현재가"]
def RT_OPEN_KEYS : List String := ["open", "시가"]
def RT_HIGH_KEYS : List String := ["high", "고가"]
def RT_LOW_KEYS : List String := ["low", "저가"]
def RT_VOL_KEYS : List String := ["cum_volume", "volume", "거래량"]
def RT_RATE_KEYS : List String := ["rate", "change_rate"]
def RT_DIFF_KEYS : List String := ["diff", "change"]
def RT_INTEN_KEYS : List String := ["intensity"]

/-- perf_real_main._on_realtime, body applied to the symbol record `s` found
under the message's code: every magnitude passes through _abs_num (absolute
value at the ingestion boundary), zero values leave fields untouched, then
strategy.recompute_scores runs and the tick counter advances. -/
def onRtMain (s : Stock) (data : Sample) : Stock :=
  let price := absNumMain (firstValid RT_PRICE_KEYS data (.vnum 0))
  let op := absNumMain (firstValid RT_OPEN_KEYS data (.vnum 0))
  let hi := absNumMain (firstValid RT_HIGH_KEYS data (.vnum 0))
  let lo := absNumMain (firstValid RT_LOW_KEYS data (.vnum 0))
  let vol := absNumMain (firstValid RT_VOL_KEYS data (.vnum 0))
  let rate := toNumMain (firstValid RT_RATE_KEYS data (.vnum 0))
  let diff := toNumMain (firstValid RT_DIFF_KEYS data (.vnum 0))
  let inten := absNumMain (firstValid RT_INTEN_KEYS data (.vnum 0))
  let s1 := if 0 < price then { s with price := price } else s
  let s2 := if 0 < op then { s1 with open_price := op } else s1
  let s3 := if 0 < hi then { s2 with high := max s2.high hi } else s2
  let s4 :=
    if 0 < lo then
      { s3 with low := if 0 < s3.low then min s3.low lo else lo }
    else s3
  let s5 := if 0 < vol then { s4 with volume_acc := vol } else s4
  let s6 := recompute_scores s5 rate diff inten
  { s6 with tick_count := s6.tick_count + 1 }

/-- perf_real._on_realtime, body applied to the symbol record `s` found under
the message's code. This variant keeps the broker's sign on the decoded price
(plain _to_num, no absolute value) and only stores it when positive, and
derives its scores inline. -/
def onRtLegacy (s : Stock) (data : Sample) : Stock :=
  let price := toNumLegacy (coalesceC ["current_price", "price", K_CLOSE] data (.vnum 0))
  let op := toNumLegacy (coalesceC ["open", K_OPEN] data (.vnum s.open_price))
  let vol := toNumLegacy (coalesceC ["cum_volume", "volume", K_VOL] data (.vnum s.volume_acc))
  let rate0 := toNumLegacy (coalesceC ["rate", "change_rate"] data (.vnum 0))
  let diff0 := toNumLegacy (coalesceC ["diff", "change"] data (.vnum 0))
  let intensity := toNumLegacy (coalesceC ["intensity"] data (.vnum 0))
  let s1 := if 0 < price then { s with price := price } else s
  let s2 := if 0 < op then { s1 with open_price := op } else s1
  let s3 := if 0 < vol then { s2 with volume_acc := vol } else s2
  let rate :=
    if 0 < s3.open_price ∧ rate0 = 0 ∧ 0 < s3.price then
      (s3.price - s3.open_price) / s3.open_price * 100
    else rate0
  let diff :=
    if 0 < s3.open_price ∧ diff0 = 0 ∧ 0 < s3.price then
      s3.price - s3.open_price
    else diff0
  let abs_rate := |rate|
  let tes := max 0 (min 3 (abs_rate / 2.5 + intensity / 200))
  let ucs := max 0 (min 1
    (min 1 (abs_rate / 10) * 0.5 + min 1 (intensity / 150) * 0.5))
  let frs := max 0 (min 2.5
    (1 + diff / max 1 s3.open_price * 5 + ucs * 0.3))
  let hms := max 0 (min 1 ucs)
  let bms := max 0 (min 1 (abs_rate / 5))
  let sls := max 0 (min 1 (min 1 (s3.volume_acc / 5000000)))
  let axes := (if 0.4 ≤ hms then 1 else 0) + (if 0.4 ≤ bms then 1 else 0)
    + (if 0.4 ≤ sls then 1 else 0)
  { s3 with tes := tes, ucs := ucs, frs := frs, hms := hms, bms := bms,
            sls := sls, axes := axes, tick_count := s3.tick_count + 1 }

/-! ## Stress replay (per-symbol body of RealDataSimulator._run_stress_tick,
identical in perf_real_main.py and perf_real_claude.py except for which score
routine is invoked — passed here as the parameter `rc`). -/

/-- Apply one replayed candle to a symbol record as if it were a live tick:
price, open (if positive), high/low water marks, cumulative volume, tick
count, then the score recomputation with the derived rate. -/
def applyStressCandle (rc : Stock → ℚ → ℚ → ℚ → Stock)
    (sr : Stock) (candle : Bar) : Stock :=
  let sr1 := { sr with price := candle.c }
  let sr2 := if 0 < candle.o then { sr1 with open_price := candle.o } else sr1
  let sr3 := { sr2 with high := max sr2.high candle.h }
  let sr4 :=
    { sr3 with low := if 0 < sr3.low then min sr3.low candle.l else candle.l }
  let sr5 := { sr4 with volume_acc := sr4.volume_acc + candle.v,
                        tick_count := sr4.tick_count + 1 }
  let op := sr5.open_price
  let rate := if 0 < op then (candle.c - op) / op * 100 else 0
  rc sr5 rate 0 0

/-- One stress tick for one symbol: read the private replay cursor, wrap it
to 0 past the end of the cache, consume that candle, store cursor + 1. The
third component reports which candle was consumed (none for an empty cache,
which the source skips with `continue`). -/
def stepStress (rc : Stock → ℚ → ℚ → ℚ → Stock) (series : List Bar)
    (p : Stock × ℕ) : (Stock × ℕ) × Option Bar :=
  if series.isEmpty then (p, Option.none)
  else
    let n := series.length
    let i := if n ≤ p.2 then 0 else p.2
    match series.get? i with
    | some candle => ((applyStressCandle rc p.1 candle, i + 1), some candle)
    | Option.none => (p, Option.none)

/-- k-fold iteration of the per-symbol stress tick starting from a fresh
cursor (the source's `.get(code, 0)` default). -/
def iterStress (rc : Stock → ℚ → ℚ → ℚ → Stock) (series : List Bar)
    (sr0 : Stock) : ℕ → Stock × ℕ
  | 0 => (sr0, 0)
  | k + 1 => (stepStress rc series (iterStress rc series sr0 k)).1

/-! ## perf_real_main.py — adapter state, execute_condition,
_load_stocks_by_codes, _enqueue_candle_fetch, generate_candle -/

/-- Python truthiness of a decoded value. -/
def pyTruthy : Val → Bool
  | .vnone => false
  | .vbool b => b
  | .vnum q => q != 0
  | .vstr s => s != ""
  | .vlist xs => !xs.isEmpty
  | .vdict xs => !xs.isEmpty

/-- RealDataSimulator._ok: `bool(r and r.get("Success"))`. -/
def okOf : Val → Bool
  | .vdict d => if d.isEmpty then false else pyTruthy (rowGet d "Success" .vnone)
  | _ => false

/-- RealDataSimulator._data: the "Data" member if present and not None,
else the default. -/
def dataOf (r : Val) (dflt : Val) : Val :=
  match r with
  | .vdict d =>
    match d.lookup "Data" with
    | some v => match v with
      | .vnone => dflt
      | v' => v'
    | Option.none => dflt
  | _ => dflt

/-- Python iteration over a decoded value (list elements, string characters,
dict keys). Iterating a number/bool/None raises TypeError in Python; the
claims about code extraction are stated under a shape hypothesis that keeps
the `[]` returned here for those cases out of scope. -/
def iterVals : Val → List Val
  | .vlist xs => xs
  | .vstr s => s.data.map (fun ch => Val.vstr (String.mk [ch]))
  | .vdict xs => xs.map (fun p => Val.vstr p.1)
  | _ => []

/-- `x or []`. -/
def orList (v : Val) : Val := if pyTruthy v then v else .vlist []

def K_CODE : String := "종목코드"

/-- Replace-or-append update of an association-list dict. -/
def setA {α : Type} : List (String × α) → String → α → List (String × α)
  | [], k, v => [(k, v)]
  | (k', v') :: t, k, v =>
    if k' = k then (k, v) :: t else (k', v') :: setA t k v

/-- The cleaned code list extracted by execute_condition:
`[str(c).strip() for c in (payload Codes or []) if str(c).strip()]`. -/
def codesOf (pd : Sample) : List String :=
  ((iterVals (orList (firstValid ["Codes"] pd (.vlist [])))).map
    (fun c => pyStripStr (pyStrVal c))).filter (fun s => s != "")

/-- The code→name map extracted by execute_condition from payload Stocks. -/
def namesOf (pd : Sample) : List (String × String) :=
  (iterVals (orList (firstValid ["Stocks"] pd (.vlist [])))).foldl
    (fun acc row =>
      match row with
      | .vdict rd =>
        let c := pyStripStr (pyStrVal (firstValid ["code", K_CODE] rd (.vstr "")))
        let n := pyStripStr (pyStrVal (firstValid ["name", K_NAME] rd (.vstr "")))
        if c ≠ "" ∧ n ≠ "" then setA acc c n else acc
      | _ => acc)
    []

/-- Python can only iterate lists, strings and dicts; a truthy number/bool in
an iterated position raises TypeError. Shape guard keeping such payloads (on
which `iterVals` would silently yield []) out of the theorems' scope. -/
def iterShapeOk (v : Val) : Prop :=
  match orList v with
  | .vnum _ => False
  | .vbool _ => False
  | .vnone => False
  | _ => True

/-- The iterated members of a condition-search payload are iterable. -/
def respShapeOk (resp : Val) : Prop :=
  match dataOf resp (.vdict []) with
  | .vdict pd =>
      iterShapeOk (firstValid ["Codes"] pd (.vlist [])) ∧
      iterShapeOk (firstValid ["Stocks"] pd (.vlist []))
  | _ => True

/-- Adapter-owned mutable state touched by universe loading, candle caching
and replay (the fields the zero-code claim asserts are left unchanged). -/
structure SimState where
  stocks : List Stock
  candles : List (String × List Bar)
  candleIdx : List (String × ℕ)
  candleReqQueue : List String
  candleReqSet : List String
  candlesDaily : List (String × List Bar)
  stressReplayIdx : List (String × ℕ)
  histMetricsDone : Bool
  marketOpen : Bool
deriving DecidableEq, Repr

/-- RealDataSimulator._enqueue_candle_fetch (textually identical in
perf_real_main.py, perf_real_claude.py and perf_real.py): strip the code,
skip empties and codes already in the companion dedup set, else push on the
FIFO queue. -/
def enqueueCandleFetch (st : SimState) (code : String) : SimState :=
  let c := pyStripStr code
  if c = "" then st
  else if c ∈ st.candleReqSet then st
  else { st with candleReqSet := st.candleReqSet ++ [c],
                 candleReqQueue := st.candleReqQueue ++ [c] }

/-- `list(dict.fromkeys(codes))`: deduplicate keeping first occurrences. -/
def pyDedupAux : List String → List String → List String
  | [], _ => []
  | x :: t, seen =>
    if x ∈ seen then pyDedupAux t seen else x :: pyDedupAux t (x :: seen)

def pyDedup (l : List String) : List String := pyDedupAux l []

/-- One freshly loaded symbol record, as built by _load_stocks_by_codes from
the /api/market/symbol response (`oracle code`). A non-dict Data payload
contributes no keys. -/
def mkLoadedStock (code : String) (names : List (String × String))
    (oracle : String → Val) : Stock :=
  let sd : Sample :=
    match dataOf (oracle code) (.vdict []) with
    | .vdict d => d
    | _ => []
  let nm0 := (names.lookup code).getD ""
  let name := if nm0 ≠ "" then nm0
              else pyStrVal (firstValid ["name", K_NAME] sd (.vstr code))
  let last := absNumMain (firstValid ["last_price", "current_price"] sd (.vnum 0))
  let base := if 0 < last then last else 10000
  { code := code, name := name, sector := "UNKNOWN", base_price := base,
    open_price := base, price := base, prev_close := base, high := base,
    low := base, volume_acc := 0, tick_count := 0, avg5d := 1000,
    prev_d := 1000, tes := 0, ucs := 0, frs := 0, hms := 0, bms := 0,
    sls := 0, axes := 0, candle_idx := 0, placeholder := false }

/-- RealDataSimulator._load_stocks_by_codes: dedup + cap the codes, build the
replacement symbol table, wholesale-replace the universe, clear every candle
cache / cursor / prefetch / daily-metric structure, then enqueue a candle
fetch per new symbol. (The realtime re-subscription is network-side I/O.) -/
def loadStocksByCodes (st : SimState) (codes : List String)
    (names : List (String × String)) (oracle : String → Val) (n : ℕ) :
    SimState :=
  let codes1 := (pyDedup codes).take (max 1 n)
  let stocks := codes1.map (fun c => mkLoadedStock c names oracle)
  let st1 : SimState :=
    { st with stocks := stocks, candles := [], candleIdx := [],
              candleReqQueue := [], candleReqSet := [], candlesDaily := [],
              stressReplayIdx := [], histMetricsDone := false }
  stocks.foldl (fun acc s => enqueueCandleFetch acc s.code) st1

/-- RealDataSimulator.execute_condition, with the already-decoded search
response `resp` and the symbol-endpoint responses `oracle` as inputs: returns
False leaving the state alone on a failed response, a non-dict payload, or an
empty cleaned code list; otherwise loads the new universe. -/
def executeCondition (st : SimState) (resp : Val) (oracle : String → Val)
    (n : ℕ) : Bool × SimState :=
  if ¬ okOf resp then (false, st)
  else
    match dataOf resp (.vdict []) with
    | .vdict pd =>
      let codes := codesOf pd
      if codes.isEmpty then (false, st)
      else (true, loadStocksByCodes st codes (namesOf pd) oracle n)
    | _ => (false, st)

/-- Zero-filled symbol record (only a `getD` fallback; never selected because
every index into `stocks` is proved in bounds). -/
def dummyStock : Stock :=
  { code := "", name := "", sector := "", base_price := 0, open_price := 0,
    price := 0, prev_close := 0, high := 0, low := 0, volume_acc := 0,
    tick_count := 0, avg5d := 0, prev_d := 0, tes := 0, ucs := 0, frs := 0,
    hms := 0, bms := 0, sls := 0, axes := 0, candle_idx := 0,
    placeholder := false }

def dummyBar : Bar := ⟨"", 0, 0, 0, 0, 0⟩

/-- RealDataSimulator.generate_candle (perf_real_main variant): clamp the
index into the universe, placeholders and the empty universe yield the zero
tuple, an empty candle cache yields a flat bar at the symbol's price, and
otherwise the replay cursor walks (and off-market rewinds) the cache. -/
def generateCandleMain (st : SimState) (idx : ℤ) :
    (ℚ × ℚ × ℚ × ℚ × ℚ × ℤ) × SimState :=
  if st.stocks.isEmpty then ((0, 0, 0, 0, 0, 0), st)
  else
    let len := st.stocks.length
    let j : ℕ := (max 0 (min idx ((len : ℤ) - 1))).toNat
    let s := st.stocks.getD j dummyStock
    if s.placeholder then ((0, 0, 0, 0, 0, 0), st)
    else
      let code := s.code
      let st1 :=
        if (st.candles.lookup code).isNone then
          let st' := enqueueCandleFetch st code
          { st' with candles := setA st'.candles code [],
                     candleIdx := setA st'.candleIdx code 0 }
        else st
      let series := (st1.candles.lookup code).getD []
      let i0 := (st1.candleIdx.lookup code).getD 0
      if series.isEmpty then
        let p := s.price
        let s' := { s with candle_idx := s.candle_idx + 1 }
        ((p, p, p, p, 0, s.candle_idx + 1),
         { st1 with stocks := st1.stocks.set j s' })
      else
        let n := series.length
        let istep : ℕ × SimState :=
          if n ≤ i0 then
            if ¬ st1.marketOpen ∧ 1 < n then
              let i := n - min 120 n
              (i, { st1 with candleIdx := setA st1.candleIdx code (i + 1) })
            else (n - 1, st1)
          else (i0, st1)
        let i1 := istep.1
        let st2 := istep.2
        let row := series.getD i1 dummyBar
        let st3 :=
          if i1 < n - 1 then
            { st2 with candleIdx := setA st2.candleIdx code (i1 + 1) }
          else st2
        let s' := { s with price := row.c, candle_idx := s.candle_idx + 1 }
        ((row.o, row.h, row.l, row.c, row.v, s.candle_idx + 1),
         { st3 with stocks := st3.stocks.set j s' })

/-- RealDataSimulator.generate_candle (perf_real_claude variant): the same
clamp / allocate-empty-cache / flat-bar / cursor-walk logic as the main
variant, but this simulator has no placeholder rows and hence no placeholder
branch — an empty candle cache always yields a flat bar at the symbol's
current price with volume 0.0. -/
def generateCandleClaude (st : SimState) (idx : ℤ) :
    (ℚ × ℚ × ℚ × ℚ × ℚ × ℤ) × SimState :=
  if st.stocks.isEmpty then ((0, 0, 0, 0, 0, 0), st)
  else
    let len := st.stocks.length
    let j : ℕ := (max 0 (min idx ((len : ℤ) - 1))).toNat
    let s := st.stocks.getD j dummyStock
    let code := s.code
    let st1 :=
      if (st.candles.lookup code).isNone then
        let st' := enqueueCandleFetch st code
        { st' with candles := setA st'.candles code [],
                   candleIdx := setA st'.candleIdx code 0 }
      else st
    let series := (st1.candles.lookup code).getD []
    let i0 := (st1.candleIdx.lookup code).getD 0
    if series.isEmpty then
      let p := s.price
      let s' := { s with candle_idx := s.candle_idx + 1 }
      ((p, p, p, p, 0, s.candle_idx + 1),
       { st1 with stocks := st1.stocks.set j s' })
    else
      let n := series.length
      let istep : ℕ × SimState :=
        if n ≤ i0 then
          if ¬ st1.marketOpen ∧ 1 < n then
            let i := n - min 120 n
            (i, { st1 with candleIdx := setA st1.candleIdx code (i + 1) })
          else (n - 1, st1)
        else (i0, st1)
      let i1 := istep.1
      let st2 := istep.2
      let row := series.getD i1 dummyBar
      let st3 :=
        if i1 < n - 1 then
          { st2 with candleIdx := setA st2.candleIdx code (i1 + 1) }
        else st2
      let s' := { s with price := row.c, candle_idx := s.candle_idx + 1 }
      ((row.o, row.h, row.l, row.c, row.v, s.candle_idx + 1),
       { st3 with stocks := st3.stocks.set j s' })

/-- RealDataSimulator.generate_candle (perf_real variant): as the claude
variant (no placeholder branch), except that the flat bar produced for an
empty candle cache carries max(0.0, volume_acc) as its volume instead of
0.0. -/
def generateCandleLegacy (st : SimState) (idx : ℤ) :
    (ℚ × ℚ × ℚ × ℚ × ℚ × ℤ) × SimState :=
  if st.stocks.isEmpty then ((0, 0, 0, 0, 0, 0), st)
  else
    let len := st.stocks.length
    let j : ℕ := (max 0 (min idx ((len : ℤ) - 1))).toNat
    let s := st.stocks.getD j dummyStock
    let code := s.code
    let st1 :=
      if (st.candles.lookup code).isNone then
        let st' := enqueueCandleFetch st code
        { st' with candles := setA st'.candles code [],
                   candleIdx := setA st'.candleIdx code 0 }
      else st
    let series := (st1.candles.lookup code).getD []
    let i0 := (st1.candleIdx.lookup code).getD 0
    if series.isEmpty then
      let p := s.price
      let s' := { s with candle_idx := s.candle_idx + 1 }
      ((p, p, p, p, max 0 s.volume_acc, s.candle_idx + 1),
       { st1 with stocks := st1.stocks.set j s' })
    else
      let n := series.length
      let istep : ℕ × SimState :=
        if n ≤ i0 then
          if ¬ st1.marketOpen ∧ 1 < n then
            let i := n - min 120 n
            (i, { st1 with candleIdx := setA st1.candleIdx code (i + 1) })
          else (n - 1, st1)
        else (i0, st1)
      let i1 := istep.1
      let st2 := istep.2
      let row := series.getD i1 dummyBar
      let st3 :=
        if i1 < n - 1 then
          { st2 with candleIdx := setA st2.candleIdx code (i1 + 1) }
        else st2
      let s' := { s with price := row.c, candle_idx := s.candle_idx + 1 }
      ((row.o, row.h, row.l, row.c, row.v, s.candle_idx + 1),
       { st3 with stocks := st3.stocks.set j s' })

/-! ## perf_real_main.RealDataSimulator._api_get (retry/backoff wrapper).
The network call of attempt `a` is `oracle a`; an exception is an `.error`.
The output records the returned dict, how many attempts ran, and the backoff
sleeps performed between attempts (the unconditional post-success throttle
sleep is not a backoff and is not listed). -/

def apiFailDict (msg : String) : Sample :=
  [("Success", .vbool false), ("Message", .vstr msg), ("Data", .vnone)]

def apiGet3 (throttle : ℚ) (oracle : ℕ → Except String Sample) :
    Sample × ℕ × List ℚ :=
  match oracle 0 with
  | .ok r => (r, 1, [])
  | .error _ =>
    match oracle 1 with
    | .ok r => (r, 2, [throttle * 2])
    | .error _ =>
      match oracle 2 with
      | .ok r => (r, 3, [throttle * 2, throttle * 3])
      | .error e => (apiFailDict e, 3, [throttle * 2, throttle * 3])

/-! ## app_state.AppState.set_dashboard_snapshot (dedup by canonical
signature). The stored dashboard dict is modelled as a total lookup function;
`json.dumps(..., sort_keys=True)` equality is modelled by structural equality
of the canonical signature record (equal structures have equal dumps). -/

/-- The keys whose values are deep-copied and for which a None value keeps
the previous entry. -/
def snapshotDeepKeys : List String :=
  ["Holdings", "Outstanding", "RawBalance", "RawDeposit", "RawOutstanding"]

abbrev DashDict := String → Option Val

def dashUpdate (d : DashDict) (k : String) (v : Val) : DashDict :=
  fun k' => if k' = k then some v else d k'

/-- Merge one snapshot item into the dashboard dict. -/
def mergeStep (d : DashDict) (kv : String × Val) : DashDict :=
  if kv.1 ∈ snapshotDeepKeys then
    match kv.2 with
    | .vnone => d
    | v => dashUpdate d kv.1 v
  else dashUpdate d kv.1 kv.2

def mergeSnap (d : DashDict) (S : Sample) : DashDict := S.foldl mergeStep d

/-- The `signature_target` record: account id, fetch time, totals, holdings,
outstanding. An absent key and a present None key both dump as null. -/
structure Sig where
  accountNo : Val
  fetchedAt : Val
  totalPurchase : Val
  totalEvaluation : Val
  totalPnL : Val
  totalPnLRate : Val
  realizedPnL : Val
  holdings : Val
  outstanding : Val

def Sig.beq (a b : Sig) : Bool :=
  Val.beq a.accountNo b.accountNo && Val.beq a.fetchedAt b.fetchedAt &&
  Val.beq a.totalPurchase b.totalPurchase &&
  Val.beq a.totalEvaluation b.totalEvaluation &&
  Val.beq a.totalPnL b.totalPnL && Val.beq a.totalPnLRate b.totalPnLRate &&
  Val.beq a.realizedPnL b.realizedPnL && Val.beq a.holdings b.holdings &&
  Val.beq a.outstanding b.outstanding

theorem Sig.beq_self (a : Sig) : Sig.beq a a = true := by
  simp [Sig.beq, Val.beq_refl]

def sigOf (d : DashDict) : Sig :=
  { accountNo := (d "AccountNo").getD .vnone,
    fetchedAt := (d "FetchedAt").getD .vnone,
    totalPurchase := (d "TotalPurchase").getD .vnone,
    totalEvaluation := (d "TotalEvaluation").getD .vnone,
    totalPnL := (d "TotalPnL").getD .vnone,
    totalPnLRate := (d "TotalPnLRate").getD .vnone,
    realizedPnL := (d "RealizedPnL").getD .vnone,
    holdings := (d "Holdings").getD .vnone,
    outstanding := (d "Outstanding").getD .vnone }

/-- `x or []`. -/
def orEmptyList (v : Val) : Val := if pyTruthy v then v else .vlist []

/-- AppState fields touched by set_dashboard_snapshot, plus a counter of
notifications delivered to dashboard listeners. -/
structure DashState where
  dashboard : DashDict
  holdings : Val
  outstanding : Val
  sigStored : Option Sig
  published : ℕ

/-- app_state.AppState.set_dashboard_snapshot: empty snapshots are rejected;
otherwise merge into the previous dashboard, build the canonical signature,
publish (replace state and notify) only when the signature changed. -/
def setDashboardSnapshot (st : DashState) (S : Sample) : Bool × DashState :=
  if S.isEmpty then (false, st)
  else
    let merged := mergeSnap st.dashboard S
    let sig := sigOf merged
    let same :=
      match st.sigStored with
      | some t => Sig.beq t sig
      | Option.none => false
    if same then (false, st)
    else
      (true,
       { dashboard := merged,
         holdings := orEmptyList ((merged "Holdings").getD .vnone),
         outstanding := orEmptyList ((merged "Outstanding").getD .vnone),
         sigStored := some sig,
         published := st.published + 1 })

/-! ## Concrete fixtures (inputs for witness theorems) -/

/-- A previously loaded adapter state with one symbol and non-empty caches. -/
def exSimState : SimState :=
  { stocks := [{ dummyStock with code := "X", price := 500 }],
    candles := [("X", [⟨"t", 1, 2, 1, 2, 3⟩])],
    candleIdx := [("X", 1)],
    candleReqQueue := ["X"],
    candleReqSet := ["X"],
    candlesDaily := [("X", [⟨"d", 1, 2, 1, 2, 3⟩])],
    stressReplayIdx := [("X", 2)],
    histMetricsDone := true,
    marketOpen := false }

/-- A failed condition-search response. -/
def exRespFail : Val := .vdict [("Success", .vbool false)]

/-- A successful response whose payload carries zero codes. -/
def exRespZero : Val :=
  .vdict [("Success", .vbool true), ("Data", .vdict [("Codes", .vlist [])])]

/-- A successful response carrying one code. -/
def exRespOne : Val :=
  .vdict [("Success", .vbool true),
          ("Data", .vdict [("Codes", .vlist [.vstr "005930"])])]

/-- A symbol endpoint that always fails (mkLoadedStock falls back to
defaults). -/
def exOracle : String → Val := fun _ => Val.vnone

/-- The placeholder row inserted at bootstrap when the universe is small
(price 1, `_placeholder` set). -/
def exPlaceholderStock : Stock :=
  { code := "000000", name := "대기중 #1", sector := "NONE", base_price := 1,
    open_price := 1, price := 1, prev_close := 0, high := 0, low := 0,
    volume_acc := 0, tick_count := 0, avg5d := 1, prev_d := 1, tes := 0,
    ucs := 0, frs := 0, hms := 0, bms := 0, sls := 0, axes := 0,
    candle_idx := 0, placeholder := true }

/-- Adapter state holding only the placeholder row, with empty caches. -/
def exPhState : SimState :=
  { stocks := [exPlaceholderStock], candles := [], candleIdx := [],
    candleReqQueue := [], candleReqSet := [], candlesDaily := [],
    stressReplayIdx := [], histMetricsDone := false, marketOpen := false }

/-- Adapter state with an empty universe. -/
def exEmptyState : SimState :=
  { stocks := [], candles := [], candleIdx := [], candleReqQueue := [],
    candleReqSet := [], candlesDaily := [], stressReplayIdx := [],
    histMetricsDone := false, marketOpen := false }

/-- Adapter state holding one real symbol with no cached candles. -/
def exFlatState : SimState :=
  { stocks := [{ dummyStock with code := "Y", price := 250, candle_idx := 4 }],
    candles := [], candleIdx := [], candleReqQueue := [], candleReqSet := [],
    candlesDaily := [], stressReplayIdx := [], histMetricsDone := false,
    marketOpen := false }

/-- Fresh AppState dashboard fields (empty dict, empty signature). -/
def exDashState : DashState :=
  { dashboard := fun _ => Option.none, holdings := .vlist [],
    outstanding := .vlist [], sigStored := Option.none, published := 0 }

/-- Whether one snapshot item overwrites the dashboard entry at key `k`
(deep keys skip None values). -/
def effStep (kv : String × Val) (k : String) : Bool :=
  (match kv.2 with
   | .vnone => decide (kv.1 ∉ snapshotDeepKeys)
   | _ => true) && (k == kv.1)

/-! ## Shared helper lemmas -/

theorem lookup_setA {α : Type} (m : List (String × α)) (k : String) (v : α) :
    (setA m k v).lookup k = some v := by
  induction m with
  | nil => simp [setA, List.lookup]
  | cons p t ih =>
    by_cases hk : p.1 = k
    · simp [setA, hk, List.lookup]
    · simp only [setA]
      rw [if_neg hk]
      have hkk : (k == p.1) = false := by
        simp [beq_iff_eq]
        exact fun h => hk h.symm
      simp [List.lookup, hkk, ih]

theorem clamp_nonneg (b x : ℚ) : 0 ≤ max 0 (min b x) := le_max_left 0 _

theorem clamp_le (b x : ℚ) (hb : 0 ≤ b) : max 0 (min b x) ≤ b :=
  max_le hb (min_le_left _ _)

theorem count_ge3 (h b s : ℚ) :
    (([h, b, s].filter (fun x => 0.4 ≤ x)).length : ℕ)
      = (if 0.4 ≤ h then 1 else 0) + (if 0.4 ≤ b then 1 else 0)
        + (if 0.4 ≤ s then 1 else 0) := by
  by_cases h1 : 0.4 ≤ h <;> by_cases h2 : 0.4 ≤ b <;> by_cases h3 : 0.4 ≤ s <;>
    simp [List.filter, h1, h2, h3]

/-! ## C2 — ScoreEngine bounds -/

/-- C2: for every symbol state and any rate/diff/intensity arguments, both
score routines (strategy.recompute_scores and perf_real_claude's
_recompute_scores) produce tes ∈ [0,3], frs ∈ [0,2.5], ucs, hms, bms, sls ∈
[0,1], and an axes count equal to the number of scores among hms, bms, sls
that are ≥ 0.4. -/
theorem scores_bounded (s : Stock) (rate diff intensity : ℚ) :
    (let r := recompute_scores s rate diff intensity
     (0 ≤ r.tes ∧ r.tes ≤ 3) ∧ (0 ≤ r.frs ∧ r.frs ≤ 2.5) ∧
     (0 ≤ r.ucs ∧ r.ucs ≤ 1) ∧ (0 ≤ r.hms ∧ r.hms ≤ 1) ∧
     (0 ≤ r.bms ∧ r.bms ≤ 1) ∧ (0 ≤ r.sls ∧ r.sls ≤ 1) ∧
     r.axes = ([r.hms, r.bms, r.sls].filter (fun x => 0.4 ≤ x)).length) ∧
    (let r := claudeRecomputeScores s rate diff intensity
     (0 ≤ r.tes ∧ r.tes ≤ 3) ∧ (0 ≤ r.frs ∧ r.frs ≤ 2.5) ∧
     (0 ≤ r.ucs ∧ r.ucs ≤ 1) ∧ (0 ≤ r.hms ∧ r.hms ≤ 1) ∧
     (0 ≤ r.bms ∧ r.bms ≤ 1) ∧ (0 ≤ r.sls ∧ r.sls ≤ 1) ∧
     r.axes = ([r.hms, r.bms, r.sls].filter (fun x => 0.4 ≤ x)).length) := by
  constructor <;>
  · simp only [recompute_scores, claudeRecomputeScores]
    refine ⟨⟨clamp_nonneg _ _, clamp_le _ _ (by norm_num)⟩,
            ⟨clamp_nonneg _ _, clamp_le _ _ (by norm_num)⟩,
            ⟨clamp_nonneg _ _, clamp_le _ _ (by norm_num)⟩,
            ⟨clamp_nonneg _ _, clamp_le _ _ (by norm_num)⟩,
            ⟨clamp_nonneg _ _, clamp_le _ _ (by norm_num)⟩,
            ⟨clamp_nonneg _ _, clamp_le _ _ (by norm_num)⟩, ?_⟩
    rw [count_ge3]

/-! ## C5 — absolute numeric coercion -/

theorem absNumCK_nonneg (v : Val) : 0 ≤ absNumCK v := by
  cases v with
  | vnum q => simp [absNumCK]
  | vbool b => cases b <;> norm_num [absNumCK]
  | vstr s =>
    simp only [absNumCK, absNumStrCK]
    cases h : ckNumRep s with
    | none => simp
    | some r => simp
  | _ => simp [absNumCK]

/-- C5: both absolute coercions (candle_keys._abs_num and
perf_real_main._abs_num) send "-1,234", "+1,234" and "--1,234" to the same
magnitude 1234; every input coerces to a non-negative value; and malformed
numeric strings coerce to 0.0 instead of raising. -/
theorem absNum_coercion_spec :
    (absNumCK (.vstr "-1,234") = 1234 ∧ absNumCK (.vstr "+1,234") = 1234 ∧
     absNumCK (.vstr "--1,234") = 1234) ∧
    (absNumMain (.vstr "-1,234") = 1234 ∧ absNumMain (.vstr "+1,234") = 1234 ∧
     absNumMain (.vstr "--1,234") = 1234) ∧
    (∀ v : Val, 0 ≤ absNumCK v) ∧ (∀ v : Val, 0 ≤ absNumMain v) ∧
    (absNumCK (.vstr "12x") = 0 ∧ absNumCK (.vstr "1.2.3") = 0 ∧
     absNumMain (.vstr "12x") = 0 ∧ absNumMain (.vstr "1.2.3") = 0) := by
  have c1 : ckNumRep "-1,234" = some ⟨false, 1234, 0, 0⟩ := by decide
  have c2 : ckNumRep "+1,234" = some ⟨false, 1234, 0, 0⟩ := by decide
  have c3 : ckNumRep "--1,234" = some ⟨false, 1234, 0, 0⟩ := by decide
  have m1 : mainNumRep "-1,234" = some (true, ⟨false, 1234, 0, 0⟩) := by decide
  have m2 : mainNumRep "+1,234" = some (false, ⟨false, 1234, 0, 0⟩) := by decide
  have m3 : mainNumRep "--1,234" = some (false, ⟨false, 1234, 0, 0⟩) := by decide
  have b1 : ckNumRep "12x" = Option.none := by decide
  have b2 : ckNumRep "1.2.3" = Option.none := by decide
  have b3 : mainNumRep "12x" = Option.none := by decide
  have b4 : mainNumRep "1.2.3" = Option.none := by decide
  refine ⟨⟨?_, ?_, ?_⟩, ⟨?_, ?_, ?_⟩, absNumCK_nonneg,
      fun v => abs_nonneg (toNumMain v), ?_, ?_, ?_, ?_⟩ <;>
    norm_num [absNumCK, absNumStrCK, absNumMain, toNumMain, toNumStrMain,
      c1, c2, c3, m1, m2, m3, b1, b2, b3, b4, FRep.toQ]

/-! ## C4 — schema detection is idempotent and locks permanently -/

/-- C4: once `detect` succeeds (a "close" mapping was resolved and the map
locked), every later `detect` call returns true and returns the state — in
particular `resolved` — unchanged, whatever the new sample is; and a failing
`detect` call leaves the map unchanged (so starting from the fresh map, whose
`resolved` is empty, `resolved` stays empty until some call resolves
"close"), and can only happen while the map is unlocked. -/
theorem detect_lock_stable (m : CandleKeyMap) (s1 s2 : Sample) :
    ((m.detect s1).1 = true →
      (m.detect s1).2.detect s2 = (true, (m.detect s1).2)) ∧
    ((m.detect s1).1 = false →
      (m.detect s1).2 = m ∧ (m.detect s1).2.resolved = m.resolved ∧
        m.locked = false) := by
  by_cases hl : m.locked
  · constructor
    · intro _
      simp [CandleKeyMap.detect, hl]
    · intro hfail
      simp [CandleKeyMap.detect, hl] at hfail
  · cases hc : (buildFound s1).lookup "close" with
    | none =>
      constructor
      · intro htrue
        simp [CandleKeyMap.detect, hl, hc] at htrue
      · intro _
        simp [CandleKeyMap.detect, hl, hc]
    | some f =>
      constructor
      · intro _
        simp [CandleKeyMap.detect, hl, hc]
      · intro hfail
        simp [CandleKeyMap.detect, hl, hc] at hfail

/-- Witness for C4 at concrete inputs: a sample carrying a "close" key locks
the map and a second detect on a different sample is a stable no-op; a sample
with no close candidate fails and changes nothing. -/
theorem detect_lock_stable_witness :
    ((CandleKeyMap.init.detect [("close", Val.vnum 5)]).1 = true ∧
     (CandleKeyMap.init.detect [("close", Val.vnum 5)]).2.detect
        [("open", Val.vnum 1)]
       = (true, (CandleKeyMap.init.detect [("close", Val.vnum 5)]).2)) ∧
    ((CandleKeyMap.init.detect [("foo", Val.vnum 1)]).1 = false ∧
     (CandleKeyMap.init.detect [("foo", Val.vnum 1)]).2 = CandleKeyMap.init ∧
     (CandleKeyMap.init.detect [("foo", Val.vnum 1)]).2.resolved
        = CandleKeyMap.init.resolved ∧
     CandleKeyMap.init.locked = false) :=
  ⟨⟨by decide,
    (detect_lock_stable CandleKeyMap.init [("close", Val.vnum 5)]
      [("open", Val.vnum 1)]).1 (by decide)⟩,
   ⟨by decide,
    (detect_lock_stable CandleKeyMap.init [("foo", Val.vnum 1)] []).2
      (by decide)⟩⟩

/-! ## C1 — parsed candle bars satisfy the OHLC invariant -/

theorem parseLocked_invariant (m : CandleKeyMap) (row : Sample) (bar : Bar)
    (h : m.parseLocked row = some bar) :
    0 < bar.c ∧ max bar.o bar.c ≤ bar.h ∧ bar.l ≤ min bar.o bar.c := by
  simp only [CandleKeyMap.parseLocked] at h
  set c := absNumCK (rowGet row ((m.resolved.lookup "close").getD "") (.vnum 0))
    with hc
  by_cases hcle : c ≤ 0
  · simp [hcle] at h
  · simp only [hcle, if_false] at h
    obtain ⟨rfl⟩ := Option.some.injEq _ _ ▸ h
    refine ⟨not_le.mp hcle, le_max_right _ _, min_le_right _ _⟩

theorem repairLow_le (l1 o c : ℚ) :
    (if min l1 (min o c) ≤ 0 then min o c else min l1 (min o c)) ≤ min o c := by
  split
  · exact le_rfl
  · exact min_le_right _ _

theorem rowToBarClaude_invariant (row : Val) (bar : Bar)
    (h : rowToBarClaude row = some bar) :
    0 < bar.c ∧ max bar.o bar.c ≤ bar.h ∧ bar.l ≤ min bar.o bar.c := by
  cases row with
  | vdict d =>
    simp only [rowToBarClaude] at h
    set c := absNumClaude (coalesceC [K_CLOSE, K_CLOSE_ALT, "close"] d (.vnum 0))
      with hc
    by_cases hcle : c ≤ 0
    · simp [hcle] at h
    · simp only [hcle, if_false] at h
      obtain ⟨rfl⟩ := Option.some.injEq _ _ ▸ h
      exact ⟨not_le.mp hcle, le_max_right _ _, repairLow_le _ _ _⟩
  | vnone => simp [rowToBarClaude] at h
  | vbool b => simp [rowToBarClaude] at h
  | vnum q => simp [rowToBarClaude] at h
  | vstr s => simp [rowToBarClaude] at h
  | vlist xs => simp [rowToBarClaude] at h

/-- C1: every bar produced by candle_keys.CandleKeyMap.parse or by
perf_real_claude._parse_candle_rows satisfies close > 0,
high ≥ max(open, close) and low ≤ min(open, close); and when the resolved
close value of a row coerces to ≤ 0, parse drops the row (returns none). -/
theorem candle_bars_invariant :
    (∀ (m : CandleKeyMap) (row : Sample) (bar : Bar) (m' : CandleKeyMap),
      m.parse row = (some bar, m') →
      0 < bar.c ∧ max bar.o bar.c ≤ bar.h ∧ bar.l ≤ min bar.o bar.c) ∧
    (∀ (m : CandleKeyMap) (row : Sample),
      absNumCK (rowGet row ((m.resolved.lookup "close").getD "") (.vnum 0)) ≤ 0 →
      m.parseLocked row = Option.none) ∧
    (∀ (rows : Val) (bar : Bar), bar ∈ parseCandleRows rows →
      0 < bar.c ∧ max bar.o bar.c ≤ bar.h ∧ bar.l ≤ min bar.o bar.c) := by
  refine ⟨?_, ?_, ?_⟩
  · intro m row bar m' h
    simp only [CandleKeyMap.parse] at h
    by_cases hl : m.locked
    · simp only [hl, if_true] at h
      exact parseLocked_invariant m row bar (congrArg Prod.fst h)
    · simp only [hl, if_false] at h
      rcases hdet : m.detect row with ⟨b, m2⟩
      rw [hdet] at h
      cases b
      · simp at h
      · exact parseLocked_invariant m2 row bar (congrArg Prod.fst h)
  · intro m row hle
    simp [CandleKeyMap.parseLocked, hle]
  · intro rows bar hmem
    cases rows with
    | vlist xs =>
      simp only [parseCandleRows] at hmem
      have hmem' := (List.mergeSort_perm (xs.filterMap rowToBarClaude)
        (fun a b => a.t ≤ b.t)).mem_iff.mp hmem
      obtain ⟨row, _, hrow⟩ := List.mem_filterMap.mp hmem'
      exact rowToBarClaude_invariant row bar hrow
    | vnone => simp [parseCandleRows] at hmem
    | vbool b => simp [parseCandleRows] at hmem
    | vnum q => simp [parseCandleRows] at hmem
    | vstr s => simp [parseCandleRows] at hmem
    | vdict d => simp [parseCandleRows] at hmem

/-- Witness for C1: a locked map parses a concrete row into a bar satisfying
the invariant; a zero close value is dropped; and a concrete claude-parsed
row list yields an invariant-satisfying bar. -/
theorem candle_bars_invariant_witness :
    ((CandleKeyMap.mk [("close", "c")] true).parse [("c", Val.vnum 5)]
        = (some ⟨"", 5, 5, 5, 5, 0⟩, CandleKeyMap.mk [("close", "c")] true) ∧
      (0 : ℚ) < 5 ∧ max (5 : ℚ) 5 ≤ 5 ∧ (5 : ℚ) ≤ min (5 : ℚ) 5) ∧
    (absNumCK (rowGet [("c", Val.vnum 0)]
        (((CandleKeyMap.mk [("close", "c")] true).resolved.lookup "close").getD "")
        (.vnum 0)) ≤ 0 ∧
      (CandleKeyMap.mk [("close", "c")] true).parseLocked [("c", Val.vnum 0)]
        = Option.none) ∧
    ((⟨"", 7, 7, 7, 7, 0⟩ : Bar) ∈
        parseCandleRows (.vlist [.vdict [("close", Val.vnum 7)]]) ∧
      (0 : ℚ) < 7 ∧ max (7 : ℚ) 7 ≤ 7 ∧ (7 : ℚ) ≤ min (7 : ℚ) 7) := by
  have hmem : (⟨"", 7, 7, 7, 7, 0⟩ : Bar) ∈
      parseCandleRows (.vlist [.vdict [("close", Val.vnum 7)]]) := by
    have hfm : ([Val.vdict [("close", Val.vnum 7)]].filterMap rowToBarClaude)
        = [⟨"", 7, 7, 7, 7, 0⟩] := by decide
    simp [parseCandleRows, hfm, List.mergeSort_singleton]
  refine ⟨⟨by decide, ?_⟩, ⟨by decide, ?_⟩, hmem, ?_⟩
  · exact candle_bars_invariant.1 (CandleKeyMap.mk [("close", "c")] true)
      [("c", Val.vnum 5)] ⟨"", 5, 5, 5, 5, 0⟩
      (CandleKeyMap.mk [("close", "c")] true) (by decide)
  · exact candle_bars_invariant.2.1 (CandleKeyMap.mk [("close", "c")] true)
      [("c", Val.vnum 0)] (by decide)
  · exact candle_bars_invariant.2.2 _ _ hmem

/-! ## C9 — HTTP GET retry/backoff wrapper -/

/-- C9: _api_get makes at most 3 attempts; the backoff sleeps between
attempts are strictly increasing (linear: throttle·2 then throttle·3) when
the throttle delay is positive; and when every attempt fails it returns the
structured failure dict (Success = False with the last error message) instead
of raising. -/
theorem apiGet_retry_spec (t : ℚ) (oracle : ℕ → Except String Sample) :
    (apiGet3 t oracle).2.1 ≤ 3 ∧
    (0 < t → (apiGet3 t oracle).2.2.Chain' (· < ·)) ∧
    (∀ e0 e1 e2, oracle 0 = .error e0 → oracle 1 = .error e1 →
      oracle 2 = .error e2 →
      apiGet3 t oracle = (apiFailDict e2, 3, [t * 2, t * 3]) ∧
      (apiFailDict e2).lookup "Success" = some (.vbool false) ∧
      (apiFailDict e2).lookup "Message" = some (.vstr e2)) := by
  have hchain : 0 < t → List.Chain' (· < ·) [t * 2, t * 3] := by
    intro ht
    have : t * 2 < t * 3 := by nlinarith
    simp [List.chain'_cons, this]
  refine ⟨?_, ?_, ?_⟩
  · cases h0 : oracle 0 <;> cases h1 : oracle 1 <;> cases h2 : oracle 2 <;>
      simp [apiGet3, h0, h1, h2]
  · intro ht
    cases h0 : oracle 0 <;> cases h1 : oracle 1 <;> cases h2 : oracle 2 <;>
      simp [apiGet3, h0, h1, h2, hchain ht]
  · intro e0 e1 e2 h0 h1 h2
    refine ⟨by simp [apiGet3, h0, h1, h2], by simp [apiFailDict, List.lookup],
      by simp [apiFailDict, List.lookup]⟩

/-- Witness for C9 at a concrete positive throttle and an always-failing
oracle. -/
theorem apiGet_retry_spec_witness :
    ((0 : ℚ) < 1 ∧
      (apiGet3 1 (fun _ => Except.error "boom")).2.2.Chain' (· < ·)) ∧
    ((fun _ : ℕ => (Except.error "boom" : Except String Sample)) 0
        = .error "boom" ∧
      apiGet3 1 (fun _ => Except.error "boom")
        = (apiFailDict "boom", 3, [1 * 2, 1 * 3]) ∧
      (apiFailDict "boom").lookup "Success" = some (.vbool false) ∧
      (apiFailDict "boom").lookup "Message" = some (.vstr "boom")) :=
  ⟨⟨by norm_num,
    (apiGet_retry_spec 1 (fun _ => Except.error "boom")).2.1 (by norm_num)⟩,
   ⟨rfl,
    (apiGet_retry_spec 1 (fun _ => Except.error "boom")).2.2 "boom" "boom"
      "boom" rfl rfl rfl⟩⟩

/-! ## C8 — stress replay wraps its per-symbol cursor modulo the cache -/

theorem succ_mod_ite (n k : ℕ) (hn : 0 < n) :
    (k + 1) % n = if n ≤ k % n + 1 then 0 else k % n + 1 := by
  have hlt : k % n < n := Nat.mod_lt _ hn
  by_cases hc : n ≤ k % n + 1
  · have hEq : k % n + 1 = n := by omega
    rw [if_pos hc, ← Nat.mod_add_mod, hEq, Nat.mod_self]
  · rw [if_neg hc, ← Nat.mod_add_mod, Nat.mod_eq_of_lt (by omega)]

theorem stepStress_snd (rc : Stock → ℚ → ℚ → ℚ → Stock) (series : List Bar)
    (hne : ¬ series.isEmpty) (p : Stock × ℕ) :
    (stepStress rc series p).1.2
      = (if series.length ≤ p.2 then 0 else p.2) + 1 := by
  have hn : 0 < series.length := by
    cases series with
    | nil => simp at hne
    | cons a l => simp
  have hi : (if series.length ≤ p.2 then 0 else p.2) < series.length := by
    split
    · exact hn
    · omega
  have hg := List.getElem?_eq_getElem hi
  simp [stepStress, hne, List.get?_eq_getElem?, hg]

theorem stepStress_applied (rc : Stock → ℚ → ℚ → ℚ → Stock)
    (series : List Bar) (hne : ¬ series.isEmpty) (p : Stock × ℕ) :
    (stepStress rc series p).2
      = series.get? (if series.length ≤ p.2 then 0 else p.2) := by
  have hn : 0 < series.length := by
    cases series with
    | nil => simp at hne
    | cons a l => simp
  have hi : (if series.length ≤ p.2 then 0 else p.2) < series.length := by
    split
    · exact hn
    · omega
  have hg := List.getElem?_eq_getElem hi
  simp [stepStress, hne, List.get?_eq_getElem?, hg]

theorem stress_cursor_mod (rc : Stock → ℚ → ℚ → ℚ → Stock) (series : List Bar)
    (sr0 : Stock) (h : series ≠ []) (k : ℕ) :
    (iterStress rc series sr0 (k + 1)).2 = k % series.length + 1 := by
  have hne : ¬ series.isEmpty := by simpa using h
  have hn : 0 < series.length := List.length_pos.mpr h
  induction k with
  | zero =>
    rw [iterStress, stepStress_snd rc series hne]
    simp [iterStress, Nat.not_le.mpr hn, Nat.zero_mod]
  | succ k ih =>
    rw [iterStress, stepStress_snd rc series hne, ih,
      succ_mod_ite series.length k hn]

theorem stress_applied_mod (rc : Stock → ℚ → ℚ → ℚ → Stock)
    (series : List Bar) (sr0 : Stock) (h : series ≠ []) (k : ℕ) :
    (stepStress rc series (iterStress rc series sr0 k)).2
      = series.get? (k % series.length) := by
  have hne : ¬ series.isEmpty := by simpa using h
  have hn : 0 < series.length := List.length_pos.mpr h
  cases k with
  | zero =>
    rw [stepStress_applied rc series hne]
    simp [iterStress, Nat.not_le.mpr hn, Nat.zero_mod]
  | succ k =>
    rw [stepStress_applied rc series hne, stress_cursor_mod rc series sr0 h k,
      succ_mod_ite series.length k hn]

/-- C8: for a symbol whose candle cache `series` is non-empty and unchanged,
the candle consumed by the k-th stress-replay tick (counting from 0) is cache
element k mod len(series), for both the perf_real_main and perf_real_claude
variants of _run_stress_tick; in particular tick len(series) wraps back to
element 0 and the sequence repeats. -/
theorem stress_replay_wraps (series : List Bar) (sr0 : Stock) (k : ℕ)
    (h : series ≠ []) :
    (stepStress recompute_scores series
        (iterStress recompute_scores series sr0 k)).2
      = series.get? (k % series.length) ∧
    (stepStress claudeRecomputeScores series
        (iterStress claudeRecomputeScores series sr0 k)).2
      = series.get? (k % series.length) :=
  ⟨stress_applied_mod recompute_scores series sr0 h k,
   stress_applied_mod claudeRecomputeScores series sr0 h k⟩

/-- Witness for C8 on a concrete two-bar cache at tick 2 (the first wrapped
tick). -/
theorem stress_replay_wraps_witness :
    (([⟨"a", 1, 2, 1, 2, 3⟩, ⟨"b", 2, 3, 2, 3, 4⟩] : List Bar) ≠ ([] : List Bar)) ∧
    ((stepStress recompute_scores ([⟨"a", 1, 2, 1, 2, 3⟩, ⟨"b", 2, 3, 2, 3, 4⟩] : List Bar)
        (iterStress recompute_scores ([⟨"a", 1, 2, 1, 2, 3⟩, ⟨"b", 2, 3, 2, 3, 4⟩] : List Bar)
          dummyStock 2)).2
      = ([⟨"a", 1, 2, 1, 2, 3⟩, ⟨"b", 2, 3, 2, 3, 4⟩] : List Bar).get?
          (2 % ([⟨"a", 1, 2, 1, 2, 3⟩, ⟨"b", 2, 3, 2, 3, 4⟩] : List Bar).length) ∧
     (stepStress claudeRecomputeScores ([⟨"a", 1, 2, 1, 2, 3⟩, ⟨"b", 2, 3, 2, 3, 4⟩] : List Bar)
        (iterStress claudeRecomputeScores
          ([⟨"a", 1, 2, 1, 2, 3⟩, ⟨"b", 2, 3, 2, 3, 4⟩] : List Bar) dummyStock 2)).2
      = ([⟨"a", 1, 2, 1, 2, 3⟩, ⟨"b", 2, 3, 2, 3, 4⟩] : List Bar).get?
          (2 % ([⟨"a", 1, 2, 1, 2, 3⟩, ⟨"b", 2, 3, 2, 3, 4⟩] : List Bar).length)) :=
  ⟨List.cons_ne_nil _ _,
   stress_replay_wraps ([⟨"a", 1, 2, 1, 2, 3⟩, ⟨"b", 2, 3, 2, 3, 4⟩] : List Bar) dummyStock 2
     (List.cons_ne_nil _ _)⟩

/-! ## C3 — signed broker price at the tick-ingestion boundary.
Scenario: two tick messages for one code, the first carrying
current_price "12,000" and rate 5.0, the second current_price "-11,000". -/

theorem recompute_scores_price (s : Stock) (r d i : ℚ) :
    (recompute_scores s r d i).price = s.price := by
  simp [recompute_scores]

/-- In perf_real_main._on_realtime the price passes through _abs_num, so the
second message stores |−11000| = 11000, whatever the prior state was. -/
theorem onRtMain_scenario (s0 : Stock) :
    (onRtMain (onRtMain s0 [("current_price", Val.vstr "12,000"),
        ("rate", Val.vnum 5)]) [("current_price", Val.vstr "-11,000")]).price
      = 11000 := by
  have h2 : absNumMain (.vstr "-11,000") = 11000 := by
    have h : mainNumRep "-11,000" = some (true, ⟨false, 11000, 0, 0⟩) := by
      decide
    norm_num [absNumMain, toNumMain, toNumStrMain, h, FRep.toQ]
  have hp : firstValid RT_PRICE_KEYS [("current_price", Val.vstr "-11,000")]
      (.vnum 0) = Val.vstr "-11,000" := rfl
  have ho : firstValid RT_OPEN_KEYS [("current_price", Val.vstr "-11,000")]
      (.vnum 0) = Val.vnum 0 := rfl
  have hh : firstValid RT_HIGH_KEYS [("current_price", Val.vstr "-11,000")]
      (.vnum 0) = Val.vnum 0 := rfl
  have hl : firstValid RT_LOW_KEYS [("current_price", Val.vstr "-11,000")]
      (.vnum 0) = Val.vnum 0 := rfl
  have hv : firstValid RT_VOL_KEYS [("current_price", Val.vstr "-11,000")]
      (.vnum 0) = Val.vnum 0 := rfl
  conv_lhs => rw [onRtMain]
  simp only [hp, ho, hh, hl, hv, h2]
  norm_num [absNumMain, toNumMain, recompute_scores_price]

/-- In perf_real._on_realtime the price keeps the broker's sign and the
`price > 0` guard drops the second message, leaving 12000 in place. -/
theorem onRtLegacy_scenario (s0 : Stock) :
    (onRtLegacy (onRtLegacy s0 [("current_price", Val.vstr "12,000"),
        ("rate", Val.vnum 5)]) [("current_price", Val.vstr "-11,000")]).price
      = 12000 := by
  have h3 : toNumLegacy (.vstr "12,000") = 12000 := by
    have h : legacyNumRep "12,000" = some (false, ⟨false, 12000, 0, 0⟩) := by
      decide
    norm_num [toNumLegacy, toNumStrLegacy, h, FRep.toQ]
  have h4 : toNumLegacy (.vstr "-11,000") = -11000 := by
    have h : legacyNumRep "-11,000" = some (true, ⟨false, 11000, 0, 0⟩) := by
      decide
    norm_num [toNumLegacy, toNumStrLegacy, h, FRep.toQ]
  have hfirst : (onRtLegacy s0 [("current_price", Val.vstr "12,000"),
      ("rate", Val.vnum 5)]).price = 12000 := by
    have hp : coalesceC ["current_price", "price", K_CLOSE]
        [("current_price", Val.vstr "12,000"), ("rate", Val.vnum 5)] (.vnum 0)
        = Val.vstr "12,000" := rfl
    conv_lhs => rw [onRtLegacy]
    simp only [hp, h3]
    norm_num [apply_ite Stock.price]
  have hp2 : coalesceC ["current_price", "price", K_CLOSE]
      [("current_price", Val.vstr "-11,000")] (.vnum 0)
      = Val.vstr "-11,000" := rfl
  conv_lhs => rw [onRtLegacy]
  simp only [hp2, h4]
  norm_num [apply_ite Stock.price, hfirst]

/-- C3 (amended): after the two messages, the perf_real_main adapter's state
holds price = 11000 (absolute value applied at the ingestion boundary), but
the perf_real variant of _on_realtime ignores the negatively-signed second
price (its positivity guard) and keeps price = 12000. -/
theorem rt_signed_price_ingestion (s0 s0' : Stock) :
    (onRtMain (onRtMain s0 [("current_price", Val.vstr "12,000"),
        ("rate", Val.vnum 5)]) [("current_price", Val.vstr "-11,000")]).price
      = 11000 ∧
    (onRtLegacy (onRtLegacy s0' [("current_price", Val.vstr "12,000"),
        ("rate", Val.vnum 5)]) [("current_price", Val.vstr "-11,000")]).price
      = 12000 :=
  ⟨onRtMain_scenario s0, onRtLegacy_scenario s0'⟩

/-- Counterexample to C3 as stated: the claim asserts price = 11000 for the
adapter state after the two messages, citing perf_real._on_realtime as well;
but that cited handler ends the scenario with price = 12000 ≠ 11000. -/
theorem rt_signed_price_counterexample :
    (onRtLegacy (onRtLegacy dummyStock [("current_price", Val.vstr "12,000"),
        ("rate", Val.vnum 5)]) [("current_price", Val.vstr "-11,000")]).price
      = 12000 ∧ (12000 : ℚ) ≠ 11000 :=
  ⟨onRtLegacy_scenario dummyStock, by norm_num⟩

/-! ## C6 — execute_condition with zero codes mutates nothing -/

theorem enqueue_pres (st : SimState) (code : String) :
    (enqueueCandleFetch st code).candles = st.candles ∧
    (enqueueCandleFetch st code).candleIdx = st.candleIdx ∧
    (enqueueCandleFetch st code).candlesDaily = st.candlesDaily ∧
    (enqueueCandleFetch st code).stressReplayIdx = st.stressReplayIdx ∧
    (enqueueCandleFetch st code).histMetricsDone = st.histMetricsDone ∧
    (enqueueCandleFetch st code).stocks = st.stocks := by
  simp only [enqueueCandleFetch]
  split_ifs <;> simp

theorem enqueueFold_pres (l : List Stock) (st : SimState) :
    ((l.foldl (fun acc s => enqueueCandleFetch acc s.code) st).candles
        = st.candles) ∧
    ((l.foldl (fun acc s => enqueueCandleFetch acc s.code) st).candleIdx
        = st.candleIdx) ∧
    ((l.foldl (fun acc s => enqueueCandleFetch acc s.code) st).candlesDaily
        = st.candlesDaily) ∧
    ((l.foldl (fun acc s => enqueueCandleFetch acc s.code) st).stressReplayIdx
        = st.stressReplayIdx) ∧
    ((l.foldl (fun acc s => enqueueCandleFetch acc s.code) st).histMetricsDone
        = st.histMetricsDone) ∧
    ((l.foldl (fun acc s => enqueueCandleFetch acc s.code) st).stocks
        = st.stocks) := by
  induction l generalizing st with
  | nil => simp
  | cons a t ih =>
    simp only [List.foldl_cons]
    obtain ⟨h1, h2, h3, h4, h5, h6⟩ := ih (enqueueCandleFetch st a.code)
    obtain ⟨g1, g2, g3, g4, g5, g6⟩ := enqueue_pres st a.code
    exact ⟨h1.trans g1, h2.trans g2, h3.trans g3, h4.trans g4,
           h5.trans g5, h6.trans g6⟩

theorem loadStocks_clears (st : SimState) (codes : List String)
    (names : List (String × String)) (oracle : String → Val) (n : ℕ) :
    (loadStocksByCodes st codes names oracle n).candles = [] ∧
    (loadStocksByCodes st codes names oracle n).candleIdx = [] ∧
    (loadStocksByCodes st codes names oracle n).candlesDaily = [] ∧
    (loadStocksByCodes st codes names oracle n).stressReplayIdx = [] ∧
    (loadStocksByCodes st codes names oracle n).histMetricsDone = false ∧
    (loadStocksByCodes st codes names oracle n).stocks
      = ((pyDedup codes).take (max 1 n)).map
          (fun c => mkLoadedStock c names oracle) := by
  simp only [loadStocksByCodes]
  exact enqueueFold_pres _ _

/-- C6: execute_condition returns false and leaves the symbol table, candle
caches, replay cursors, prefetch queue/set and daily-candle metrics untouched
whenever the search response failed or yielded zero cleaned codes (indeed
whenever it returns false); and only a response with at least one code makes
it return true, in which case the universe is wholesale-replaced and those
caches are cleared. -/
theorem executeCondition_zero_codes (st : SimState) (resp : Val)
    (oracle : String → Val) (n : ℕ) (_hshape : respShapeOk resp) :
    (okOf resp = false → executeCondition st resp oracle n = (false, st)) ∧
    (∀ pd, dataOf resp (.vdict []) = .vdict pd → (codesOf pd).isEmpty →
      executeCondition st resp oracle n = (false, st)) ∧
    ((executeCondition st resp oracle n).1 = false →
      (executeCondition st resp oracle n).2 = st) ∧
    ((executeCondition st resp oracle n).1 = true →
      ∃ pd, dataOf resp (.vdict []) = .vdict pd ∧ ¬ (codesOf pd).isEmpty ∧
        (executeCondition st resp oracle n).2
          = loadStocksByCodes st (codesOf pd) (namesOf pd) oracle n ∧
        (executeCondition st resp oracle n).2.candles = [] ∧
        (executeCondition st resp oracle n).2.candleIdx = [] ∧
        (executeCondition st resp oracle n).2.candlesDaily = [] ∧
        (executeCondition st resp oracle n).2.stressReplayIdx = [] ∧
        (executeCondition st resp oracle n).2.histMetricsDone = false ∧
        (executeCondition st resp oracle n).2.stocks
          = ((pyDedup (codesOf pd)).take (max 1 n)).map
              (fun c => mkLoadedStock c (namesOf pd) oracle)) := by
  refine ⟨?_, ?_, ?_, ?_⟩
  · intro hok
    simp [executeCondition, hok]
  · intro pd hdata hempty
    by_cases hok : okOf resp
    · simp [executeCondition, hok, hdata, hempty]
    · simp [executeCondition, hok]
  · intro hfalse
    by_cases hok : okOf resp
    · cases hdata : dataOf resp (.vdict []) with
      | vdict pd =>
        by_cases hempty : (codesOf pd).isEmpty
        · simp [executeCondition, hok, hdata, hempty]
        · exfalso
          simp [executeCondition, hok, hdata, hempty] at hfalse
      | vnone => simp [executeCondition, hok, hdata]
      | vbool b => simp [executeCondition, hok, hdata]
      | vnum q => simp [executeCondition, hok, hdata]
      | vstr s => simp [executeCondition, hok, hdata]
      | vlist xs => simp [executeCondition, hok, hdata]
    · simp [executeCondition, hok]
  · intro htrue
    by_cases hok : okOf resp
    · cases hdata : dataOf resp (.vdict []) with
      | vdict pd =>
        by_cases hempty : (codesOf pd).isEmpty
        · exfalso
          simp [executeCondition, hok, hdata, hempty] at htrue
        · have hres : executeCondition st resp oracle n
              = (true, loadStocksByCodes st (codesOf pd) (namesOf pd) oracle n) := by
            simp [executeCondition, hok, hdata, hempty]
          obtain ⟨c1, c2, c3, c4, c5, c6⟩ :=
            loadStocks_clears st (codesOf pd) (namesOf pd) oracle n
          refine ⟨pd, rfl, hempty, ?_, ?_, ?_, ?_, ?_, ?_, ?_⟩ <;>
            rw [hres] <;> simp [c1, c2, c3, c4, c5, c6]
      | vnone => simp [executeCondition, hok, hdata] at htrue
      | vbool b => simp [executeCondition, hok, hdata] at htrue
      | vnum q => simp [executeCondition, hok, hdata] at htrue
      | vstr s => simp [executeCondition, hok, hdata] at htrue
      | vlist xs => simp [executeCondition, hok, hdata] at htrue
    · simp [executeCondition, hok] at htrue

/-- Witness for C6: a failed response and a zero-code response leave the
concrete pre-loaded state untouched and return false; a one-code response
returns true and clears the caches. -/
theorem executeCondition_zero_codes_witness :
    (respShapeOk exRespFail ∧ respShapeOk exRespZero ∧
      respShapeOk exRespOne) ∧
    (okOf exRespFail = false ∧
      executeCondition exSimState exRespFail exOracle 5 = (false, exSimState)) ∧
    (dataOf exRespZero (.vdict []) = .vdict [("Codes", .vlist [])] ∧
      (codesOf [("Codes", .vlist [])]).isEmpty ∧
      executeCondition exSimState exRespZero exOracle 5 = (false, exSimState)) ∧
    ((executeCondition exSimState exRespFail exOracle 5).1 = false ∧
      (executeCondition exSimState exRespFail exOracle 5).2 = exSimState) ∧
    ((executeCondition exSimState exRespOne exOracle 5).1 = true ∧
      ∃ pd, dataOf exRespOne (.vdict []) = .vdict pd ∧
        ¬ (codesOf pd).isEmpty ∧
        (executeCondition exSimState exRespOne exOracle 5).2
          = loadStocksByCodes exSimState (codesOf pd) (namesOf pd) exOracle 5 ∧
        (executeCondition exSimState exRespOne exOracle 5).2.candles = [] ∧
        (executeCondition exSimState exRespOne exOracle 5).2.candleIdx = [] ∧
        (executeCondition exSimState exRespOne exOracle 5).2.candlesDaily = [] ∧
        (executeCondition exSimState exRespOne exOracle 5).2.stressReplayIdx
          = [] ∧
        (executeCondition exSimState exRespOne exOracle 5).2.histMetricsDone
          = false ∧
        (executeCondition exSimState exRespOne exOracle 5).2.stocks
          = ((pyDedup (codesOf pd)).take (max 1 5)).map
              (fun c => mkLoadedStock c (namesOf pd) exOracle)) :=
  ⟨⟨⟨trivial, trivial⟩, ⟨trivial, trivial⟩, ⟨trivial, trivial⟩⟩,
   ⟨rfl, (executeCondition_zero_codes exSimState exRespFail exOracle 5
      ⟨trivial, trivial⟩).1 rfl⟩,
   ⟨rfl, rfl,
    (executeCondition_zero_codes exSimState exRespZero exOracle 5
      ⟨trivial, trivial⟩).2.1 [("Codes", .vlist [])] rfl rfl⟩,
   ⟨rfl,
    (executeCondition_zero_codes exSimState exRespFail exOracle 5
      ⟨trivial, trivial⟩).2.2.1 rfl⟩,
   ⟨rfl,
    (executeCondition_zero_codes exSimState exRespOne exOracle 5
      ⟨trivial, trivial⟩).2.2.2 rfl⟩⟩

/-! ## C10 — generate_candle is total over its index argument -/

/-- C10 (amended): all three generate_candle variants (perf_real_main,
perf_real_claude, perf_real) never raise — on an empty universe each returns
the zero tuple; otherwise the index (any integer, negative or out-of-range
included) is clamped into [0, len(stocks)−1]; a selected symbol whose candle
cache is empty (or not yet allocated) yields a flat bar at the symbol's
current price — with volume 0 in the main and claude variants and
max(0, volume_acc) in the perf_real variant — except that in perf_real_main
a selected placeholder row yields the zero tuple instead (this last case is
what the claim as stated misses). -/
theorem generateCandle_total (st : SimState) (idx : ℤ) :
    (st.stocks = [] →
      generateCandleMain st idx = ((0, 0, 0, 0, 0, 0), st) ∧
      generateCandleClaude st idx = ((0, 0, 0, 0, 0, 0), st) ∧
      generateCandleLegacy st idx = ((0, 0, 0, 0, 0, 0), st)) ∧
    (st.stocks ≠ [] →
      (max 0 (min idx ((st.stocks.length : ℤ) - 1))).toNat
        < st.stocks.length) ∧
    (st.stocks ≠ [] →
      ∀ s, s = st.stocks.getD
          (max 0 (min idx ((st.stocks.length : ℤ) - 1))).toNat dummyStock →
        ((st.candles.lookup s.code).getD [] = [] →
          (generateCandleClaude st idx).1
            = (s.price, s.price, s.price, s.price, 0, s.candle_idx + 1) ∧
          (generateCandleLegacy st idx).1
            = (s.price, s.price, s.price, s.price, max 0 s.volume_acc,
               s.candle_idx + 1)) ∧
        (s.placeholder = false →
          (st.candles.lookup s.code).getD [] = [] →
          (generateCandleMain st idx).1
            = (s.price, s.price, s.price, s.price, 0, s.candle_idx + 1)) ∧
        (s.placeholder = true →
          generateCandleMain st idx = ((0, 0, 0, 0, 0, 0), st))) := by
  refine ⟨?_, ?_, ?_⟩
  · intro h
    refine ⟨?_, ?_, ?_⟩ <;>
      simp [generateCandleMain, generateCandleClaude, generateCandleLegacy, h]
  · intro h
    have hl : 0 < st.stocks.length := List.length_pos.mpr h
    omega
  · intro h s hs
    have hne : st.stocks.isEmpty = false := by
      simpa [List.isEmpty_iff] using h
    have hs' : st.stocks.getD
        (max 0 (min idx ((st.stocks.length : ℤ) - 1))).toNat dummyStock = s :=
      hs.symm
    refine ⟨?_, ?_, ?_⟩
    · intro hser
      cases hlu : st.candles.lookup s.code with
      | none =>
        have hlu2 : ((enqueueCandleFetch st s.code).candles.lookup s.code)
            = st.candles.lookup s.code := by
          rw [(enqueue_pres st s.code).1]
        constructor
        · simp only [generateCandleClaude, hne, Bool.false_eq_true, if_false,
            hs']
          simp [hlu, hlu2, lookup_setA]
        · simp only [generateCandleLegacy, hne, Bool.false_eq_true, if_false,
            hs']
          simp [hlu, hlu2, lookup_setA]
      | some l =>
        have hl : l = [] := by simpa [hlu] using hser
        subst hl
        constructor
        · simp only [generateCandleClaude, hne, Bool.false_eq_true, if_false,
            hs']
          simp [hlu]
        · simp only [generateCandleLegacy, hne, Bool.false_eq_true, if_false,
            hs']
          simp [hlu]
    · intro hph hser
      cases hlu : st.candles.lookup s.code with
      | none =>
        have hlu2 : ((enqueueCandleFetch st s.code).candles.lookup s.code)
            = st.candles.lookup s.code := by
          rw [(enqueue_pres st s.code).1]
        simp only [generateCandleMain, hne, Bool.false_eq_true, if_false, hs']
        simp [hph, hlu, hlu2, lookup_setA]
      | some l =>
        have hl : l = [] := by simpa [hlu] using hser
        subst hl
        simp only [generateCandleMain, hne, Bool.false_eq_true, if_false, hs']
        simp [hph, hlu]
    · intro hph
      simp only [generateCandleMain, hne, Bool.false_eq_true, if_false, hs']
      simp [hph]

/-- Witness for C10: the empty universe (all three variants), a one-symbol
cache-less state with the out-of-range index −5 (clamped to 0) for all three
variants, and the placeholder case of the main variant. -/
theorem generateCandle_total_witness :
    (exEmptyState.stocks = [] ∧
      generateCandleMain exEmptyState 7 = ((0, 0, 0, 0, 0, 0), exEmptyState) ∧
      generateCandleClaude exEmptyState 7
        = ((0, 0, 0, 0, 0, 0), exEmptyState) ∧
      generateCandleLegacy exEmptyState 7
        = ((0, 0, 0, 0, 0, 0), exEmptyState)) ∧
    (exFlatState.stocks ≠ [] ∧
      (max 0 (min (-5 : ℤ) ((exFlatState.stocks.length : ℤ) - 1))).toNat
        < exFlatState.stocks.length) ∧
    (({ dummyStock with code := "Y", price := 250, candle_idx := 4 } : Stock)
        = exFlatState.stocks.getD
            (max 0 (min (-5 : ℤ) ((exFlatState.stocks.length : ℤ) - 1))).toNat
            dummyStock ∧
      (exFlatState.candles.lookup
        ({ dummyStock with code := "Y", price := 250, candle_idx := 4 }
          : Stock).code).getD [] = [] ∧
      (generateCandleClaude exFlatState (-5)).1
        = (250, 250, 250, 250, 0, 5) ∧
      (generateCandleLegacy exFlatState (-5)).1
        = (250, 250, 250, 250, max 0 (0 : ℚ), 5) ∧
      ({ dummyStock with code := "Y", price := 250, candle_idx := 4 }
          : Stock).placeholder = false ∧
      (generateCandleMain exFlatState (-5)).1 = (250, 250, 250, 250, 0, 5)) ∧
    (exPlaceholderStock
        = exPhState.stocks.getD
            (max 0 (min (0 : ℤ) ((exPhState.stocks.length : ℤ) - 1))).toNat
            dummyStock ∧
      exPlaceholderStock.placeholder = true ∧
      generateCandleMain exPhState 0 = ((0, 0, 0, 0, 0, 0), exPhState)) := by
  have hneF : exFlatState.stocks ≠ [] := by
    simp [exFlatState]
  have hneP : exPhState.stocks ≠ [] := by
    simp [exPhState]
  have hselF : ({ dummyStock with code := "Y", price := 250, candle_idx := 4 }
      : Stock) = exFlatState.stocks.getD
        (max 0 (min (-5 : ℤ) ((exFlatState.stocks.length : ℤ) - 1))).toNat
        dummyStock := by decide
  have hselP : exPlaceholderStock = exPhState.stocks.getD
      (max 0 (min (0 : ℤ) ((exPhState.stocks.length : ℤ) - 1))).toNat
      dummyStock := by decide
  have hflat := ((generateCandle_total exFlatState (-5)).2.2 hneF _ hselF).1 rfl
  refine ⟨⟨rfl, (generateCandle_total exEmptyState 7).1 rfl⟩,
    ⟨hneF, (generateCandle_total exFlatState (-5)).2.1 hneF⟩,
    ⟨hselF, rfl, hflat.1, hflat.2, rfl, ?_⟩, ⟨hselP, rfl, ?_⟩⟩
  · exact ((generateCandle_total exFlatState (-5)).2.2 hneF _
      hselF).2.1 rfl rfl
  · exact ((generateCandle_total exPhState 0).2.2 hneP _ hselP).2.2 rfl

/-- Counterexample to C10 as stated: the reachable bootstrap state holding a
placeholder row with price 1 and an empty candle cache makes generate_candle
return the zero tuple, not a flat bar at the symbol's current price (its open
component 0 differs from the price 1). -/
theorem generateCandle_flatbar_counterexample :
    (generateCandleMain exPhState 0).1 = (0, 0, 0, 0, 0, 0) ∧
    (exPhState.stocks.getD 0 dummyStock).price = 1 ∧
    (generateCandleMain exPhState 0).1.1
      ≠ (exPhState.stocks.getD 0 dummyStock).price := by
  refine ⟨rfl, rfl, ?_⟩
  norm_num [exPhState, exPlaceholderStock, generateCandleMain, dummyStock]

/-! ## C7 — dashboard snapshot deduplication -/

theorem mergeStep_apply (d : DashDict) (kv : String × Val) (k : String) :
    (mergeStep d kv) k = if effStep kv k then some kv.2 else d k := by
  obtain ⟨kk, vv⟩ := kv
  cases vv <;> by_cases hsp : kk ∈ snapshotDeepKeys <;>
    by_cases hk : k = kk <;>
    simp [mergeStep, dashUpdate, effStep, hsp, hk]

theorem mergeSnap_apply (S : Sample) :
    ∀ (d : DashDict) (k : String),
      (mergeSnap d S) k
        = S.foldl (fun acc kv => if effStep kv k then some kv.2 else acc)
            (d k) := by
  induction S with
  | nil => intro d k; rfl
  | cons kv t ih =>
    intro d k
    simp only [mergeSnap, List.foldl_cons] at ih ⊢
    rw [ih (mergeStep d kv) k, mergeStep_apply]

theorem foldl_overwrite (k : String) :
    ∀ (t : Sample) (i : Option Val),
      t.foldl (fun acc kv => if effStep kv k then some kv.2 else acc) i
        = (t.foldl (fun acc kv => if effStep kv k then some kv.2 else acc)
            Option.none).elim i some := by
  intro t
  induction t with
  | nil => intro i; simp
  | cons kv t ih =>
    intro i
    simp only [List.foldl_cons]
    rw [ih (if effStep kv k then some kv.2 else i),
      ih (if effStep kv k then some kv.2 else Option.none)]
    cases hT : t.foldl (fun acc kv => if effStep kv k then some kv.2 else acc)
        Option.none <;> by_cases he : effStep kv k <;> simp [hT, he]

theorem mergeSnap_idem_apply (d : DashDict) (S : Sample) (k : String) :
    mergeSnap (mergeSnap d S) S k = mergeSnap d S k := by
  have hchar : mergeSnap d S k
      = (S.foldl (fun acc kv => if effStep kv k then some kv.2 else acc)
          Option.none).elim (d k) some := by
    rw [mergeSnap_apply, foldl_overwrite]
  rw [mergeSnap_apply S (mergeSnap d S) k, foldl_overwrite]
  cases hT : S.foldl (fun acc kv => if effStep kv k then some kv.2 else acc)
      Option.none with
  | none =>
    simp [hT]
  | some v =>
    rw [hT] at hchar
    simp [hT, hchar]

theorem sigOf_mergeSnap_idem (d : DashDict) (S : Sample) :
    sigOf (mergeSnap (mergeSnap d S) S) = sigOf (mergeSnap d S) := by
  simp only [sigOf, mergeSnap_idem_apply]

/-- C7: applying set_dashboard_snapshot twice with the same (non-empty)
snapshot, starting from a state with no published signature, publishes
exactly one notification: the first call returns true and bumps the listener
notification count once; the second call returns false and leaves the whole
stored state — dashboard, holdings, outstanding, signature — unchanged. -/
theorem dashboard_dedup (st : DashState) (S : Sample)
    (hS : S ≠ []) (hinit : st.sigStored = Option.none) :
    (setDashboardSnapshot st S).1 = true ∧
    (setDashboardSnapshot st S).2.published = st.published + 1 ∧
    setDashboardSnapshot (setDashboardSnapshot st S).2 S
      = (false, (setDashboardSnapshot st S).2) := by
  have hSe : S.isEmpty = false := by
    cases S with
    | nil => exact absurd rfl hS
    | cons a t => rfl
  have h2 : sigOf (mergeSnap (mergeSnap st.dashboard S) S)
      = sigOf (mergeSnap st.dashboard S) := sigOf_mergeSnap_idem _ _
  refine ⟨?_, ?_, ?_⟩ <;>
    simp [setDashboardSnapshot, hSe, hinit, h2, Sig.beq_self]

/-- Witness for C7 on a concrete one-entry snapshot applied twice to the
fresh state. -/
theorem dashboard_dedup_witness :
    (([("AccountNo", Val.vstr "A")] : Sample) ≠ [] ∧
      exDashState.sigStored = Option.none) ∧
    ((setDashboardSnapshot exDashState [("AccountNo", Val.vstr "A")]).1
        = true ∧
     (setDashboardSnapshot exDashState
        [("AccountNo", Val.vstr "A")]).2.published
        = exDashState.published + 1 ∧
     setDashboardSnapshot
        (setDashboardSnapshot exDashState [("AccountNo", Val.vstr "A")]).2
        [("AccountNo", Val.vstr "A")]
       = (false, (setDashboardSnapshot exDashState
            [("AccountNo", Val.vstr "A")]).2)) :=
  ⟨⟨List.cons_ne_nil _ _, rfl⟩,
   dashboard_dedup exDashState [("AccountNo", Val.vstr "A")]
     (List.cons_ne_nil _ _) rfl⟩

end Server32
